import Mathlib

/-!
# Verification of the fastlem flow-routing / lake-resolution / equilibrium solver

Shallow embedding of the core of the `fastlem` landscape-evolution library
(`src/lem/stream_tree.rs`, `src/lem/drainage_basin.rs`, `src/lem/generator.rs`).

Conventions of the embedding:
* `f64` values are embedded as `ℚ` (exact arithmetic; the claims under study are
  stated in exact arithmetic).
* Rust `Vec<T>` becomes `List T`; indexing `v[i]` becomes `List.getD`; in-place
  assignment becomes `List.set`.
* Loops whose termination depends on data invariants (chain walks, the carving
  priority-queue loop, the basin BFS, the outer solver loop) are embedded with an
  explicit fuel argument; the fuel chosen in the top-level definitions is proved
  (or documented) sufficient under the invariants the source relies on.
* Code from crates outside `src/` (the `terrain_graph` graph container, the
  `rand` RNG, `f64::powf`, `f64::tan`, Rust's `std::collections::BinaryHeap`)
  is modelled from the spec; each such definition carries a doc comment saying so.
-/

namespace Fastlem

/-- Modelled from the spec: the proximity graph (crate `terrain_graph`, not under
`src/`) is "an undirected weighted graph over site indices", exposing for each
site "an adjacency list of (neighbor index, edge distance)"
(`neighbors_of`), and an edge query `has_edge`. -/
structure Graph where
  nbrs : ℕ → List (ℕ × ℚ)

/-- Modelled from the spec: `has_edge(i, j)` returns a pair `(ok, edge)`; `ok`
tells whether the edge exists and `edge` is its length.  The length component is
only read by callers when `ok` is true. -/
def Graph.hasEdge (g : Graph) (i j : ℕ) : Bool × ℚ :=
  match (g.nbrs i).find? (fun p => decide (p.1 = j)) with
  | some p => (true, p.2)
  | none => (false, 0)

/-- `f64::EPSILON`, the perturbation scale used on the initial elevations. -/
def EPSILON : ℚ := 1 / 2 ^ 52

/-- Modelled from the spec: the initial tie-breaking perturbation stream.  The
source seeds `rand::StdRng` from the constant seed `[0u8; 32]` and draws one
`f64` in `[0,1)` per site; the RNG implementation lives in the external `rand`
crate (not under `src/`), so only what the spec states is modelled: the stream
is a fixed deterministic sequence derived from that constant seed ("a negligible
deterministic or seeded perturbation").  No settled claim depends on the
individual values, so the fixed stream is taken to be constantly `0`. -/
def stdRngStream : ℕ → ℚ := fun _ => 0

/-- The default value of the exponent `m` for calculating stream power
(`DEFAULT_M_EXP` in `generator.rs`). -/
def DEFAULT_M_EXP : ℚ := 1 / 2

/-- The floor square root on `ℕ` (an executable helper for
`streamPowerAreaTerm`). -/
def floorSqrt (n : ℕ) : ℕ :=
  (List.range (n + 1)).foldl (fun a k => if k * k ≤ n then k else a) 0

/-- Modelled from the spec: `drainage_areas[i].powf(m_exp)` with
`m_exp = DEFAULT_M_EXP = 0.5`, i.e. a square root.  `f64::powf` is Rust `std`
code (not under `src/`); the spec only requires `drainageArea^m` with `m = 0.5`.
It is modelled by an executable rational square-root approximation (floor square
roots of numerator and denominator); the claims settled here do not depend on
the numeric accuracy of this function, only on it being a fixed deterministic
function of the drainage area. -/
def streamPowerAreaTerm (x : ℚ) : ℚ :=
  (floorSqrt x.num.toNat : ℚ) / (floorSqrt x.den : ℚ)

/-- Modelled from the spec: `f64::tan` (Rust `std`, not under `src/`) applied to
`max_slope`, which the spec constrains to `[0, π/2)`, a range on which `tan` is
nonnegative and increasing.  Only those two properties reach any claim, so the
function is modelled by `max x 0`. -/
def f64Tan (x : ℚ) : ℚ := max x 0

/-! ## `src/lem/stream_tree.rs` -/

namespace StreamTree

/-- `StreamTree::create_outlet_table`: a boolean table marking the outlets. -/
def createOutletTable (num : ℕ) (outlets : List ℕ) : List Bool :=
  outlets.foldl (fun t i => t.set i true) (List.replicate num false)

/-- The inner neighbor scan of `StreamTree::construct_initial_stream_tree` for a
single non-outlet site `i`: starting from `steepest_slope = 0` and `next[i] = i`,
every strictly lower neighbor whose down-hill slope strictly exceeds the current
steepest slope replaces the current choice. -/
def steepestDescent (altitudes : List ℚ) (g : Graph) (i : ℕ) : ℕ :=
  ((g.nbrs i).foldl
    (fun acc ja =>
      if altitudes.getD i 0 > altitudes.getD ja.1 0 then
        let downHillSlope := (altitudes.getD i 0 - altitudes.getD ja.1 0) / ja.2
        if downHillSlope > acc.1 then (downHillSlope, ja.1) else acc
      else acc)
    ((0 : ℚ), i)).2

/-- `StreamTree::construct_initial_stream_tree`.  The source initializes
`next = [0, .., num-1]` and overwrites entry `i` (only) during iteration `i` of
the outer loop; this is rendered index-wise. -/
def constructInitialStreamTree (num : ℕ) (altitudes : List ℚ) (g : Graph)
    (isOutlet : List Bool) : List ℕ :=
  (List.range num).map (fun i =>
    if isOutlet.getD i false then i else steepestDescent altitudes g i)

/-- The first `while` of `find_roots_with_lakes`: follow `next` from `iv` while
the current site has no memoized subroot and is not a self-loop.  The source
loop terminates because the initial stream tree is acyclic; the embedding
carries fuel, and `num` steps are sufficient under that invariant. -/
def chainWalk (next : List ℕ) (subroot : List (Option ℕ)) :
    ℕ → ℕ → ℕ
  | 0, iv => iv
  | fuel + 1, iv =>
    if (subroot.getD iv none) = none ∧ iv ≠ next.getD iv iv then
      chainWalk next subroot fuel (next.getD iv iv)
    else iv

/-- The second `while` of `find_roots_with_lakes` plus the trailing assignment:
memoize the discovered root `ir` along the walked path, ending at the first site
that already has a subroot or is a self-loop. -/
def assignPath (next : List ℕ) (ir : Option ℕ) :
    ℕ → ℕ → List (Option ℕ) → List (Option ℕ)
  | 0, iv, subroot => subroot.set iv ir
  | fuel + 1, iv, subroot =>
    if (subroot.getD iv none) = none ∧ iv ≠ next.getD iv iv then
      assignPath next ir fuel (next.getD iv iv) (subroot.set iv ir)
    else subroot.set iv ir

/-- `StreamTree::find_roots_with_lakes`.  Returns the per-site subroot table and
the `has_lake` flag.  The source unwraps the `Option` entries at the end (every
entry has been assigned by then); the embedding uses `getD 0` for that. -/
def findRootsWithLakes (num : ℕ) (isOutlet : List Bool) (next : List ℕ) :
    List ℕ × Bool :=
  let init : List (Option ℕ) :=
    (List.range num).map (fun i => if isOutlet.getD i false then some i else none)
  let res :=
    (List.range num).foldl
      (fun (acc : List (Option ℕ) × Bool) i =>
        if (acc.1.getD i none).isSome then acc
        else
          let iv := chainWalk next acc.1 num i
          let ir : Option ℕ × Bool :=
            if (acc.1.getD iv none) = none then (some iv, true)
            else (acc.1.getD iv none, acc.2)
          (assignPath next ir.1 num i acc.1, ir.2))
      (init, false)
  (res.1.map (fun r => r.getD 0), res.2)

/-- The pointer-reversal loop inside `remove_lakes_from_stream_tree`: walk from
`k` with back-pointer `nk`, flipping the flow direction along the chain until a
self-loop is reached; the self-loop site is redirected to its predecessor.  The
source loop terminates because the walked chain (inside a still-unconnected
component) is the acyclic initial chain; `next.length + 1` fuel suffices under
that invariant. -/
def flipFlow : ℕ → List ℕ → ℕ → ℕ → List ℕ
  | 0, next, k, nk => next.set k nk
  | fuel + 1, next, k, nk =>
    if next.getD k k ≠ k then
      flipFlow fuel (next.set k nk) (next.getD k k) k
    else next.set k nk

/-- Modelled from the spec: `std::collections::BinaryHeap` (Rust `std`, not
under `src/`) with the reversed `Ord` on `RidgeElement` pops an element of
minimal `diff` ("pop the highest-priority site", priority being lowest cost).
Which element is popped among equal `diff`s is unspecified in Rust; the model
fixes the earliest-pushed-first among minima (the claims never depend on the
order among ties).  The heap is represented as the list of its elements with
push = cons. -/
def heapPop : List (ℕ × ℚ) → Option ((ℕ × ℚ) × List (ℕ × ℚ))
  | [] => none
  | x :: xs =>
    match heapPop xs with
    | none => some (x, [])
    | some (m, rest) => if x.2 ≤ m.2 then some (x, xs) else some (m, x :: rest)

/-- The mutable state of `remove_lakes_from_stream_tree`'s main loop. -/
structure CarveState where
  heap : List (ℕ × ℚ)
  next : List ℕ
  root : List (Option ℕ)
  visited : List Bool

/-- Processing of one neighbor `ja` of the popped site `i` inside
`remove_lakes_from_stream_tree`: skip if visited; if the neighbor's component is
not yet connected to an outlet, reverse the flow path from `j` back to its
former root so that it flows into `i` and mark the component root resolved;
finally push `j` with priority `(altitudes[j] - altitudes[i]) * distance`. -/
def processNeighbor (altitudes : List ℚ) (subroot : List ℕ) (i : ℕ)
    (st : CarveState) (ja : ℕ × ℚ) : CarveState :=
  let j := ja.1
  if st.visited.getD j false then st
  else
    let st1 :=
      if (st.root.getD (subroot.getD j 0) none) = none then
        { st with
          next := flipFlow (st.next.length + 1) st.next j i
          root := st.root.set (subroot.getD j 0) (st.root.getD (subroot.getD i 0) none) }
      else st
    { st1 with
      heap := (j, (altitudes.getD j 0 - altitudes.getD i 0) * ja.2) :: st1.heap }

/-- The `while let Some(element) = ridgestack.pop()` loop of
`remove_lakes_from_stream_tree`, with explicit fuel. -/
def carveLoop (altitudes : List ℚ) (g : Graph) (subroot : List ℕ) :
    ℕ → CarveState → CarveState
  | 0, st => st
  | fuel + 1, st =>
    match heapPop st.heap with
    | none => st
    | some (e, rest) =>
      let i := e.1
      let st0 : CarveState := { st with heap := rest }
      if st0.visited.getD i false then carveLoop altitudes g subroot fuel st0
      else
        let st1 := (g.nbrs i).foldl (processNeighbor altitudes subroot i) st0
        let st2 : CarveState :=
          { st1 with
            root := st1.root.set i (st1.root.getD (subroot.getD i 0) none)
            visited := st1.visited.set i true }
        carveLoop altitudes g subroot fuel st2

/-- Fuel sufficient to drain the carving queue: one unit per initial element
plus one per possible push (each site's neighbor list is pushed at most once,
when the site is first popped), plus one to observe the empty queue. -/
def carveFuel (num : ℕ) (g : Graph) (outlets : List ℕ) : ℕ :=
  outlets.length + (((List.range num).map (fun i => (g.nbrs i).length)).sum) + 1

/-- `StreamTree::remove_lakes_from_stream_tree`. -/
def removeLakesFromStreamTree (next : List ℕ) (num : ℕ) (altitudes : List ℚ)
    (g : Graph) (outlets : List ℕ) (subroot : List ℕ) : List ℕ :=
  let root0 : List (Option ℕ) :=
    outlets.foldl (fun r o => r.set o (some o)) (List.replicate num none)
  let heap0 : List (ℕ × ℚ) :=
    outlets.foldl (fun h o => (o, altitudes.getD o 0) :: h) []
  let st :=
    carveLoop altitudes g subroot (carveFuel num g outlets)
      ⟨heap0, next, root0, List.replicate num false⟩
  st.next

/-- `StreamTree::construct`: the complete flow-routing step.  The `sites`
argument of the source is only used through `sites.len()`, rendered as `num`. -/
def construct (num : ℕ) (altitudes : List ℚ) (g : Graph) (outlets : List ℕ) :
    List ℕ :=
  let isOutlet := createOutletTable num outlets
  let next := constructInitialStreamTree num altitudes g isOutlet
  let sr := findRootsWithLakes num isOutlet next
  if sr.2 = false then next
  else removeLakesFromStreamTree next num altitudes g outlets sr.1

end StreamTree

/-! ## `src/lem/drainage_basin.rs` -/

namespace DrainageBasin

/-- The neighbors `jt` of `it` with `stream_tree.next[jt] == it`, pushed while
`it` is being processed in `DrainageBasin::construct`. -/
def basinChildren (next : List ℕ) (g : Graph) (it : ℕ) : List ℕ :=
  ((g.nbrs it).filter (fun ja => decide (next.getD ja.1 ja.1 = it))).map (·.1)

/-- The `loop` of `DrainageBasin::construct`: process the site at position `i`
of the traversal, appending its children, until the cursor passes the end.
Fuel-bounded; `next.length` steps suffice (the traversal has no duplicates, see
`basin_nodup`). -/
def basinLoop (next : List ℕ) (g : Graph) : ℕ → ℕ → List ℕ → List ℕ
  | 0, _, t => t
  | fuel + 1, i, t =>
    let t' := t ++ basinChildren next g (t.getD i 0)
    if i + 1 ≥ t'.length then t' else basinLoop next g fuel (i + 1) t'

/-- `DrainageBasin::construct`: breadth-first expansion from the outlet along
the inverse of `next`.  The result is the `traversal` vector; `for_each_upstream`
folds over it and `for_each_downstream` folds over its reverse. -/
def construct (outlet : ℕ) (next : List ℕ) (g : Graph) : List ℕ :=
  basinLoop next g next.length 0 [outlet]

end DrainageBasin

/-! ## `src/lem/generator.rs` -/

/-- `TopographicalParameters` (`src/core/parameters.rs`). -/
structure TopographicalParameters where
  base_elevation : ℚ
  erodibility : ℚ
  uplift_rate : ℚ
  is_outlet : Bool
  max_slope : Option ℚ
deriving DecidableEq

/-- The `Default` instance of `TopographicalParameters`. -/
def TopographicalParameters.default : TopographicalParameters :=
  ⟨0, 1, 1, false, none⟩

instance : Inhabited TopographicalParameters := ⟨TopographicalParameters.default⟩

/-- `GenerationError` (`src/lem/generator.rs`). -/
inductive GenerationError where
  | invalidNumberOfParameters
  | parametersNotSet
  | modelNotSet
deriving DecidableEq

/-- The data `TerrainGenerator::generate` reads from the `Model` trait object:
`num`, `areas`, `graph`, `default_outlets`.  (`sites` is also fetched but only
flows into `StreamTree::construct`, which uses nothing but `sites.len() = num`;
the output terrain pairs the unchanged sites with the elevations, so the
elevation list is the computed content.) -/
structure ModelData where
  num : ℕ
  areas : List ℚ
  graph : Graph
  default_outlets : List ℕ

/-- `TerrainGenerator` (the three fields read by `generate`). -/
structure TerrainGenerator where
  model : Option ModelData
  parameters : Option (List TopographicalParameters)
  max_iteration : Option ℕ

/-- The effective outlet list of `generate`: the indices of parameters with
`is_outlet` set, or the model's `default_outlets` if no parameter declares
itself an outlet. -/
def effectiveOutlets (params : List TopographicalParameters)
    (defaults : List ℕ) : List ℕ :=
  let outlets := (params.enum.filter (fun p => p.2.is_outlet)).map (·.1)
  if outlets.isEmpty then defaults else outlets

/-- The initial elevations: `base_elevation + rng.gen::<f64>() * f64::EPSILON`
per site, the RNG being seeded from the constant `[0u8; 32]`. -/
def initialElevations (params : List TopographicalParameters) : List ℚ :=
  params.enum.map (fun p => p.2.base_elevation + stdRngStream p.1 * EPSILON)

/-- `if ok { edge } else { 1.0 }` applied to `graph.has_edge(i, j)`. -/
def edgeDistance (g : Graph) (i j : ℕ) : ℚ :=
  let e := g.hasEdge i j
  if e.1 then e.2 else 1

/-- The per-iteration mutable state of the solver: the drainage-area array, the
response-time array, the elevation array, and the `changed` flag. -/
structure IterState where
  drainageAreas : List ℚ
  responseTimes : List ℚ
  elevations : List ℚ
  changed : Bool

/-- The body of `outlets.iter().for_each(...)` in `generate`: construct the
outlet's drainage basin, accumulate drainage areas in downstream order,
accumulate response times in upstream order, then update elevations (with the
optional slope clamp) in upstream order. -/
def processOutlet (g : Graph) (params : List TopographicalParameters)
    (next : List ℕ) (st : IterState) (outlet : ℕ) : IterState :=
  let basin := DrainageBasin.construct outlet next g
  let da := basin.reverse.foldl
    (fun (da : List ℚ) i =>
      let j := next.getD i i
      if j ≠ i then da.set j (da.getD j 0 + da.getD i 0) else da)
    st.drainageAreas
  let rt := basin.foldl
    (fun (rt : List ℚ) i =>
      let j := next.getD i i
      let distance := edgeDistance g i j
      let celerity :=
        (params.getD i TopographicalParameters.default).erodibility *
          streamPowerAreaTerm (da.getD i 0)
      rt.set i (rt.getD i 0 + (rt.getD j 0 + 1 / celerity * distance)))
    st.responseTimes
  let ec := basin.foldl
    (fun (acc : List ℚ × Bool) i =>
      let p := params.getD i TopographicalParameters.default
      let newElevation0 :=
        acc.1.getD outlet 0 +
          p.uplift_rate * max (rt.getD i 0 - rt.getD outlet 0) 0
      let newElevation :=
        match p.max_slope with
        | none => newElevation0
        | some ms =>
          let j := next.getD i i
          let distance := edgeDistance g i j
          let maxSlope := f64Tan ms
          let slope := (newElevation0 - acc.1.getD j 0) / distance
          if slope > maxSlope then acc.1.getD j 0 + maxSlope * distance
          else newElevation0
      (acc.1.set i newElevation,
        if newElevation = acc.1.getD i 0 then acc.2 else true))
    (st.elevations, st.changed)
  ⟨da, rt, ec.1, ec.2⟩

/-- One iteration of the solver loop: rebuild the stream tree from the current
elevations, then process every outlet's basin. -/
def solveIteration (num : ℕ) (g : Graph) (params : List TopographicalParameters)
    (areas : List ℚ) (outlets : List ℕ) (elev : List ℚ) : IterState :=
  let next := StreamTree.construct num elev g outlets
  outlets.foldl (processOutlet g params next) ⟨areas, List.replicate num 0, elev, false⟩

/-- The result of the solver loop.  `elevations` is what the source returns;
`iterations` (number of executions of the loop body) and `converged` (whether
the loop exited through the `!changed` break) are instrumentation recording how
the loop exited — the source exposes neither. -/
structure SolveResult where
  elevations : List ℚ
  iterations : ℕ
  converged : Bool
deriving DecidableEq

/-- The `loop { ... }` of `generate`, with explicit fuel for the unbounded
case: run one iteration; exit if nothing changed; otherwise increment `step`
and exit if `max_iteration` is set and reached. -/
def solveLoop (num : ℕ) (g : Graph) (params : List TopographicalParameters)
    (areas : List ℚ) (outlets : List ℕ) (maxIter : Option ℕ) :
    ℕ → ℕ → ℕ → List ℚ → SolveResult
  | 0, _, count, elev => ⟨elev, count, false⟩
  | fuel + 1, step, count, elev =>
    let st := solveIteration num g params areas outlets elev
    if st.changed = false then ⟨st.elevations, count + 1, true⟩
    else
      match maxIter with
      | some mi =>
        if step + 1 ≥ mi then ⟨st.elevations, count + 1, false⟩
        else solveLoop num g params areas outlets maxIter fuel (step + 1) (count + 1) st.elevations
      | none =>
        solveLoop num g params areas outlets maxIter fuel (step + 1) (count + 1) st.elevations

/-- `TerrainGenerator::generate`.  `entropy` represents the ambient source of
randomness an implementation could draw from; the source never does (its RNG is
seeded from the constant `[0u8; 32]`), so `entropy` is (faithfully) unused.
`fuel` bounds the unbounded solver loop of the source; when
`max_iteration = some k`, a fuel of `k + 1` is sufficient for the embedding to
follow the source exactly (see `solveLoop_fuel_free`). -/
def generate (entropy : ℕ → ℚ) (fuel : ℕ) (gen : TerrainGenerator) :
    Except GenerationError (List ℚ) :=
  match gen.model with
  | none => .error .modelNotSet
  | some model =>
    match gen.parameters with
    | none => .error .parametersNotSet
    | some parameters =>
      if parameters.length ≠ model.num then .error .invalidNumberOfParameters
      else
        let outlets := effectiveOutlets parameters model.default_outlets
        let res :=
          solveLoop model.num model.graph parameters model.areas outlets
            gen.max_iteration fuel 0 0 (initialElevations parameters)
        .ok res.elevations

/-! ## Spec-level notions used to state the claims -/

/-- The flow assignment as a function: `next[i]`, with `i` itself as the
out-of-range default (an out-of-range site is its own sink). -/
def nextF (next : List ℕ) : ℕ → ℕ := fun i => next.getD i i

/-- Iterating `next` from `x` reaches a site in the outlet list. -/
def reachesOutlet (next outlets : List ℕ) (x : ℕ) : Prop :=
  ∃ k, (nextF next)^[k] x ∈ outlets

/-- The spec's topological-order property of a basin traversal `t`: every
element other than the head is preceded (strictly earlier in `t`) by the site
it flows into. -/
def parentEarlier (next : List ℕ) (t : List ℕ) : Prop :=
  ∀ p, p < t.length → 0 < p → ∃ q, q < p ∧ t.getD q 0 = nextF next (t.getD p 0)

/-- Graph well-formedness (guaranteed by the external graph construction):
neighbor indices of in-range sites are in range. -/
def Graph.inRange (g : Graph) (num : ℕ) : Prop :=
  ∀ i, i < num → ∀ ja ∈ g.nbrs i, ja.1 < num

/-- Graph well-formedness: no site is its own neighbor. -/
def Graph.noSelfNbr (g : Graph) : Prop :=
  ∀ i, ∀ ja ∈ g.nbrs i, ja.1 ≠ i

/-- Graph well-formedness: adjacency is symmetric (with matching distances). -/
def Graph.symm (g : Graph) : Prop :=
  ∀ i, ∀ ja ∈ g.nbrs i, (i, ja.2) ∈ g.nbrs ja.1

/-- Graph well-formedness: each adjacency list mentions each neighbor once. -/
def Graph.nbrsNodup (g : Graph) : Prop :=
  ∀ i, ((g.nbrs i).map Prod.fst).Nodup

/-- Graph well-formedness: edge distances are positive. -/
def Graph.posDist (g : Graph) : Prop :=
  ∀ i, ∀ ja ∈ g.nbrs i, 0 < ja.2

/-! ## Concrete configurations used by witnesses and counterexamples -/

/-- A 4-site path graph `0 — 2 — 3 — 1` with edge distances
`d(0,2) = 1`, `d(2,3) = 4`, `d(3,1) = 1`. -/
def exGraph : Graph :=
  ⟨fun i =>
    if i = 0 then [(2, 1)]
    else if i = 1 then [(3, 1)]
    else if i = 2 then [(0, 1), (3, 4)]
    else if i = 3 then [(2, 4), (1, 1)]
    else []⟩

/-- Parameters for `exGraph`, with every base elevation shifted by `c`:
sites 0 and 1 are outlets at base `0 + c` and `3/2 + c`; site 2 is a hill at
`1 + c`; site 3 is a depression at `-1 + c` (a lake: both its neighbors are
higher). -/
def exParams (c : ℚ) : List TopographicalParameters :=
  [⟨0 + c, 1, 1, true, none⟩, ⟨3/2 + c, 1, 1, true, none⟩,
   ⟨1 + c, 1, 1, false, none⟩, ⟨-1 + c, 1, 1/4, false, none⟩]

/-- The generator configuration for `exGraph`/`exParams`, unit cell areas, no
default outlets, no iteration bound. -/
def exGen (c : ℚ) : TerrainGenerator :=
  ⟨some ⟨4, [1, 1, 1, 1], exGraph, []⟩, some (exParams c), none⟩

/-- The same configuration with an explicit `max_iteration`. -/
def exGenMI (c : ℚ) (mi : ℕ) : TerrainGenerator :=
  ⟨some ⟨4, [1, 1, 1, 1], exGraph, []⟩, some (exParams c), some mi⟩

/-- A 2-site graph with a single edge of length 1. -/
def ex1Graph : Graph :=
  ⟨fun i => if i = 0 then [(1, 1)] else if i = 1 then [(0, 1)] else []⟩

/-- Parameters for `ex1Graph` with a single outlet (site 0) at base `b`. -/
def ex1Params (b : ℚ) : List TopographicalParameters :=
  [⟨b, 1, 1, true, none⟩, ⟨b + 5, 1, 1, false, none⟩]

/-- A configuration whose effective outlet set is empty: no parameter has
`is_outlet` and the model's `default_outlets` list is empty. -/
def exNoOutletGen : TerrainGenerator :=
  ⟨some ⟨2, [1, 1], ex1Graph, []⟩,
   some [⟨5, 1, 1, false, none⟩, ⟨7, 1, 1, false, none⟩], none⟩

/-- `n`-fold application of the elevation map of one solver iteration (the
sequence of elevation fields the solver loop steps through). -/
def iterateElev (num : ℕ) (g : Graph) (params : List TopographicalParameters)
    (areas : List ℚ) (outlets : List ℕ) (n : ℕ) (elev : List ℚ) : List ℚ :=
  (fun e => (solveIteration num g params areas outlets e).elevations)^[n] elev

/-- The `changed` flag of the `n+1`-st solver iteration started from `elev`. -/
def changedAt (num : ℕ) (g : Graph) (params : List TopographicalParameters)
    (areas : List ℚ) (outlets : List ℕ) (n : ℕ) (elev : List ℚ) : Bool :=
  (solveIteration num g params areas outlets
    (iterateElev num g params areas outlets n elev)).changed

/-- The root that `x`'s flow chain ends at: `num` applications of `next` (an
outlet is a fixed point of `next`, so if the chain reaches one within `num`
steps — the lake-resolution postcondition — this is that outlet). -/
def chainRoot (num : ℕ) (next : List ℕ) (x : ℕ) : ℕ := (nextF next)^[num] x

/-- The drainage basin of outlet `o`: the sites whose chain root is `o`. -/
def basinOf (num : ℕ) (next : List ℕ) (o : ℕ) : Finset ℕ :=
  (Finset.range num).filter (fun x => chainRoot num next x = o)

/-- Validity of a flow assignment over `num` sites with respect to the graph
and the outlet list: entries are in range, exactly the outlets are self-loops,
every non-outlet flows to one of its graph neighbors, and every site's chain
reaches an outlet.  This is what lake resolution establishes. -/
def validFlow (num : ℕ) (g : Graph) (next outlets : List ℕ) : Prop :=
  (∀ i, i < num → next.getD i i < num)
  ∧ (∀ i, i < num → (next.getD i i = i ↔ i ∈ outlets))
  ∧ (∀ i, i < num → i ∉ outlets → ∃ d, (next.getD i i, d) ∈ g.nbrs i)
  ∧ (∀ i, i < num → reachesOutlet next outlets i)

/-- The neighbor-scan step of `steepest descent`, abstracted over the altitude
lookup `A` and the scanned site's altitude `ai` (definitionally equal to the
fold step inside `StreamTree.steepestDescent`). -/
def sdStep (A : ℕ → ℚ) (ai : ℚ) : ℚ × ℕ → ℕ × ℚ → ℚ × ℕ := fun acc ja =>
  if ai > A ja.1 then
    if (ai - A ja.1) / ja.2 > acc.1 then ((ai - A ja.1) / ja.2, ja.1) else acc
  else acc

/-- The drainage-area accumulation step of `processOutlet` as a named function
(definitionally equal to the closure folded over the reversed basin). -/
def drainageAreaStep (next : List ℕ) : List ℚ → ℕ → List ℚ := fun da i =>
  let j := next.getD i i
  if j ≠ i then da.set j (da.getD j 0 + da.getD i 0) else da

/-- The response-time accumulation step of `processOutlet` as a named function
(definitionally equal to the closure folded over the basin). -/
def responseTimeStep (g : Graph) (params : List TopographicalParameters)
    (next : List ℕ) (da : List ℚ) : List ℚ → ℕ → List ℚ := fun rt i =>
  let j := next.getD i i
  let distance := edgeDistance g i j
  let celerity :=
    (params.getD i TopographicalParameters.default).erodibility *
      streamPowerAreaTerm (da.getD i 0)
  rt.set i (rt.getD i 0 + (rt.getD j 0 + 1 / celerity * distance))

/-- The new elevation `processOutlet` computes for site `i` from the
accumulated response times and the current elevation field `e` (definitionally
equal to the `new_elevation` expression of the source, including the optional
slope clamp). -/
def newElevationAt (g : Graph) (params : List TopographicalParameters)
    (next : List ℕ) (rt : List ℚ) (outlet : ℕ) (e : List ℚ) (i : ℕ) : ℚ :=
  let p := params.getD i TopographicalParameters.default
  let newElevation0 :=
    e.getD outlet 0 + p.uplift_rate * max (rt.getD i 0 - rt.getD outlet 0) 0
  match p.max_slope with
  | none => newElevation0
  | some ms =>
    let j := next.getD i i
    let distance := edgeDistance g i j
    let maxSlope := f64Tan ms
    let slope := (newElevation0 - e.getD j 0) / distance
    if slope > maxSlope then e.getD j 0 + maxSlope * distance else newElevation0

/-- The elevation-update step of `processOutlet` as a named function
(definitionally equal to the closure folded over the basin). -/
def elevUpdateStep (g : Graph) (params : List TopographicalParameters)
    (next : List ℕ) (rt : List ℚ) (outlet : ℕ) :
    (List ℚ × Bool) → ℕ → (List ℚ × Bool) := fun acc i =>
  let newElevation := newElevationAt g params next rt outlet acc.1 i
  (acc.1.set i newElevation, if newElevation = acc.1.getD i 0 then acc.2 else true)

/-- The model data of the 2-site configuration `ex1Graph`/`ex1Params`. -/
def ex1Model : ModelData := ⟨2, [1, 1], ex1Graph, []⟩

/-- Add `c` to every site's `base_elevation` (the transformation of the
outlet-invariance claim); all other parameters are unchanged. -/
def shiftParams (c : ℚ) (params : List TopographicalParameters) :
    List TopographicalParameters :=
  params.map (fun p => { p with base_elevation := p.base_elevation + c })

/-- The elevation field `l₂` is `l₁` shifted by `c` on the first `num` sites. -/
def shiftedOn (num : ℕ) (l₁ l₂ : List ℚ) (c : ℚ) : Prop :=
  ∀ x, x < num → l₂.getD x 0 = l₁.getD x 0 + c

end Fastlem

/-! # Theorems -/

namespace Fastlem

/-! ## Small evaluation lemmas (list access at literal indices, option literals,
`streamPowerAreaTerm` at the values occurring in the concrete runs) -/

theorem someNeNoneIff (a : α) : (some a = none) ↔ False := by simp

theorem noneNeSomeIff (a : α) : (none = some a) ↔ False := by simp

theorem getElemL1 (a b : α) (l : List α) (h : 1 < (a :: b :: l).length) :
    (a :: b :: l)[(1 : ℕ)] = b := rfl

theorem getElemL2 (a b c : α) (l : List α) (h : 2 < (a :: b :: c :: l).length) :
    (a :: b :: c :: l)[(2 : ℕ)] = c := rfl

theorem getElemL3 (a b c d : α) (l : List α) (h : 3 < (a :: b :: c :: d :: l).length) :
    (a :: b :: c :: d :: l)[(3 : ℕ)] = d := rfl

theorem getDL1 (a b : α) (l : List α) (d : α) : (a :: b :: l).getD 1 d = b := rfl

theorem getDL2 (a b c : α) (l : List α) (d : α) : (a :: b :: c :: l).getD 2 d = c := rfl

theorem getDL3 (a b c e : α) (l : List α) (d : α) : (a :: b :: c :: e :: l).getD 3 d = e := rfl

theorem setL1 (a b : α) (l : List α) (v : α) : (a :: b :: l).set 1 v = a :: v :: l := rfl

theorem setL2 (a b c : α) (l : List α) (v : α) :
    (a :: b :: c :: l).set 2 v = a :: b :: v :: l := rfl

theorem setL3 (a b c e : α) (l : List α) (v : α) :
    (a :: b :: c :: e :: l).set 3 v = a :: b :: c :: v :: l := rfl

theorem sptOne : streamPowerAreaTerm 1 = 1 := by
  have h1 : floorSqrt (1 : ℚ).num.toNat = 1 := by decide
  have h2 : floorSqrt (1 : ℚ).den = 1 := by decide
  simp only [streamPowerAreaTerm, h1, h2]; norm_num

theorem sptTwo : streamPowerAreaTerm 2 = 1 := by
  have h1 : floorSqrt (2 : ℚ).num.toNat = 1 := by decide
  have h2 : floorSqrt (2 : ℚ).den = 1 := by decide
  simp only [streamPowerAreaTerm, h1, h2]; norm_num

theorem sptThree : streamPowerAreaTerm 3 = 1 := by
  have h1 : floorSqrt (3 : ℚ).num.toNat = 1 := by decide
  have h2 : floorSqrt (3 : ℚ).den = 1 := by decide
  simp only [streamPowerAreaTerm, h1, h2]; norm_num

theorem exNbrs0 : exGraph.nbrs 0 = [(2, 1)] := rfl

theorem exNbrs1 : exGraph.nbrs 1 = [(3, 1)] := rfl

theorem exNbrs2 : exGraph.nbrs 2 = [(0, 1), (3, 4)] := rfl

theorem exNbrs3 : exGraph.nbrs 3 = [(2, 4), (1, 1)] := rfl

end Fastlem

namespace Fastlem

/-! ## Staged evaluation of the two concrete solver runs on `exGraph`
(`A`: unshifted base elevations, `B`: shifted by `c = -20`) -/

theorem exInitA : initialElevations (exParams 0) = [0, 3/2, 1, -1] := by
  norm_num only [initialElevations, stdRngStream, EPSILON, exParams, List.enum, List.enumFrom,
    someNeNoneIff, noneNeSomeIff,
    Bool.false_eq_true, Bool.true_eq_false, eq_self_iff_true, and_true, true_and,
    and_false, false_and, not_true, not_false_iff, if_true, if_false,
    List.foldl_cons, List.foldl_nil, List.map_cons, List.map_nil,
    List.filter_cons, List.filter_nil, List.append_nil, List.nil_append,
    List.cons_append, List.length_cons, List.length_nil, List.getD_nil,
    List.getD_cons_zero, List.set_cons_zero, List.set_nil, List.find?_cons,
    List.find?_nil, List.sum_cons, List.sum_nil, List.reverse_cons,
    List.reverse_nil, Option.getD_some, Option.getD_none, Option.isSome_some, Option.isSome_none,
    beq_iff_eq, beq_self_eq_true, ne_eq, ite_true, ite_false, decide_True, decide_False,
    Nat.add_eq, Nat.add_zero, Nat.zero_add,
    Option.some.injEq, List.range_zero, List.range_succ, ge_iff_le, max_def,
    getElemL1, getElemL2, getElemL3, getDL1, getDL2, getDL3, setL1, setL2, setL3, List.replicate]

theorem exInitB : initialElevations (exParams (-20)) = [-20, -(37/2), -19, -21] := by
  norm_num only [initialElevations, stdRngStream, EPSILON, exParams, List.enum, List.enumFrom,
    someNeNoneIff, noneNeSomeIff,
    Bool.false_eq_true, Bool.true_eq_false, eq_self_iff_true, and_true, true_and,
    and_false, false_and, not_true, not_false_iff, if_true, if_false,
    List.foldl_cons, List.foldl_nil, List.map_cons, List.map_nil,
    List.filter_cons, List.filter_nil, List.append_nil, List.nil_append,
    List.cons_append, List.length_cons, List.length_nil, List.getD_nil,
    List.getD_cons_zero, List.set_cons_zero, List.set_nil, List.find?_cons,
    List.find?_nil, List.sum_cons, List.sum_nil, List.reverse_cons,
    List.reverse_nil, Option.getD_some, Option.getD_none, Option.isSome_some, Option.isSome_none,
    beq_iff_eq, beq_self_eq_true, ne_eq, ite_true, ite_false, decide_True, decide_False,
    Nat.add_eq, Nat.add_zero, Nat.zero_add,
    Option.some.injEq, List.range_zero, List.range_succ, ge_iff_le, max_def,
    getElemL1, getElemL2, getElemL3, getDL1, getDL2, getDL3, setL1, setL2, setL3, List.replicate]

theorem exOutlets (c : ℚ) : effectiveOutlets (exParams c) [] = [0, 1] := by
  norm_num only [effectiveOutlets, exParams, List.enum, List.enumFrom, List.isEmpty_cons,
    someNeNoneIff, noneNeSomeIff,
    Bool.false_eq_true, Bool.true_eq_false, eq_self_iff_true, and_true, true_and,
    and_false, false_and, not_true, not_false_iff, if_true, if_false,
    List.foldl_cons, List.foldl_nil, List.map_cons, List.map_nil,
    List.filter_cons, List.filter_nil, List.append_nil, List.nil_append,
    List.cons_append, List.length_cons, List.length_nil, List.getD_nil,
    List.getD_cons_zero, List.set_cons_zero, List.set_nil, List.find?_cons,
    List.find?_nil, List.sum_cons, List.sum_nil, List.reverse_cons,
    List.reverse_nil, Option.getD_some, Option.getD_none, Option.isSome_some, Option.isSome_none,
    beq_iff_eq, beq_self_eq_true, ne_eq, ite_true, ite_false, decide_True, decide_False,
    Nat.add_eq, Nat.add_zero, Nat.zero_add,
    Option.some.injEq, List.range_zero, List.range_succ, ge_iff_le, max_def,
    getElemL1, getElemL2, getElemL3, getDL1, getDL2, getDL3, setL1, setL2, setL3, List.replicate]

set_option maxHeartbeats 1000000 in
/-- Iteration 1 of run A: the initial descent makes site 3 a lake; carving reroutes it into site 2. -/
theorem exTreeA1 : StreamTree.construct 4 [0, 3/2, 1, -1] exGraph [0, 1] = [0, 1, 0, 2] := by
  norm_num only [StreamTree.construct, StreamTree.createOutletTable,
    StreamTree.constructInitialStreamTree, StreamTree.steepestDescent,
    StreamTree.findRootsWithLakes, StreamTree.chainWalk, StreamTree.assignPath,
    StreamTree.removeLakesFromStreamTree, StreamTree.carveLoop, StreamTree.carveFuel,
    StreamTree.heapPop, StreamTree.processNeighbor, StreamTree.flipFlow,
    exNbrs0, exNbrs1, exNbrs2, exNbrs3,
    someNeNoneIff, noneNeSomeIff,
    Bool.false_eq_true, Bool.true_eq_false, eq_self_iff_true, and_true, true_and,
    and_false, false_and, not_true, not_false_iff, if_true, if_false,
    List.foldl_cons, List.foldl_nil, List.map_cons, List.map_nil,
    List.filter_cons, List.filter_nil, List.append_nil, List.nil_append,
    List.cons_append, List.length_cons, List.length_nil, List.getD_nil,
    List.getD_cons_zero, List.set_cons_zero, List.set_nil, List.find?_cons,
    List.find?_nil, List.sum_cons, List.sum_nil, List.reverse_cons,
    List.reverse_nil, Option.getD_some, Option.getD_none, Option.isSome_some, Option.isSome_none,
    beq_iff_eq, beq_self_eq_true, ne_eq, ite_true, ite_false, decide_True, decide_False,
    Nat.add_eq, Nat.add_zero, Nat.zero_add,
    Option.some.injEq, List.range_zero, List.range_succ, ge_iff_le, max_def,
    getElemL1, getElemL2, getElemL3, getDL1, getDL2, getDL3, setL1, setL2, setL3, List.replicate]

theorem exBasinA0 : DrainageBasin.construct 0 [0, 1, 0, 2] exGraph = [0, 2, 3] := by
  norm_num only [DrainageBasin.construct, DrainageBasin.basinLoop, DrainageBasin.basinChildren,
    exNbrs0, exNbrs1, exNbrs2, exNbrs3,
    someNeNoneIff, noneNeSomeIff,
    Bool.false_eq_true, Bool.true_eq_false, eq_self_iff_true, and_true, true_and,
    and_false, false_and, not_true, not_false_iff, if_true, if_false,
    List.foldl_cons, List.foldl_nil, List.map_cons, List.map_nil,
    List.filter_cons, List.filter_nil, List.append_nil, List.nil_append,
    List.cons_append, List.length_cons, List.length_nil, List.getD_nil,
    List.getD_cons_zero, List.set_cons_zero, List.set_nil, List.find?_cons,
    List.find?_nil, List.sum_cons, List.sum_nil, List.reverse_cons,
    List.reverse_nil, Option.getD_some, Option.getD_none, Option.isSome_some, Option.isSome_none,
    beq_iff_eq, beq_self_eq_true, ne_eq, ite_true, ite_false, decide_True, decide_False,
    Nat.add_eq, Nat.add_zero, Nat.zero_add,
    Option.some.injEq, List.range_zero, List.range_succ, ge_iff_le, max_def,
    getElemL1, getElemL2, getElemL3, getDL1, getDL2, getDL3, setL1, setL2, setL3, List.replicate]

theorem exBasinA1 : DrainageBasin.construct 1 [0, 1, 0, 2] exGraph = [1] := by
  norm_num only [DrainageBasin.construct, DrainageBasin.basinLoop, DrainageBasin.basinChildren,
    exNbrs0, exNbrs1, exNbrs2, exNbrs3,
    someNeNoneIff, noneNeSomeIff,
    Bool.false_eq_true, Bool.true_eq_false, eq_self_iff_true, and_true, true_and,
    and_false, false_and, not_true, not_false_iff, if_true, if_false,
    List.foldl_cons, List.foldl_nil, List.map_cons, List.map_nil,
    List.filter_cons, List.filter_nil, List.append_nil, List.nil_append,
    List.cons_append, List.length_cons, List.length_nil, List.getD_nil,
    List.getD_cons_zero, List.set_cons_zero, List.set_nil, List.find?_cons,
    List.find?_nil, List.sum_cons, List.sum_nil, List.reverse_cons,
    List.reverse_nil, Option.getD_some, Option.getD_none, Option.isSome_some, Option.isSome_none,
    beq_iff_eq, beq_self_eq_true, ne_eq, ite_true, ite_false, decide_True, decide_False,
    Nat.add_eq, Nat.add_zero, Nat.zero_add,
    Option.some.injEq, List.range_zero, List.range_succ, ge_iff_le, max_def,
    getElemL1, getElemL2, getElemL3, getDL1, getDL2, getDL3, setL1, setL2, setL3, List.replicate]

set_option maxHeartbeats 1000000 in
theorem exIterA1 : solveIteration 4 exGraph (exParams 0) [1, 1, 1, 1] [0, 1] [0, 3/2, 1, -1] = ⟨[3, 1, 2, 1], [1, 1, 2, 6], [0, 3/2, 1, 5/4], true⟩ := by
  norm_num only [exTreeA1, exBasinA0, exBasinA1, solveIteration, processOutlet, exParams,
    TopographicalParameters.default, edgeDistance, Graph.hasEdge,
    sptOne, sptTwo, sptThree, exNbrs0, exNbrs1, exNbrs2, exNbrs3,
    someNeNoneIff, noneNeSomeIff,
    Bool.false_eq_true, Bool.true_eq_false, eq_self_iff_true, and_true, true_and,
    and_false, false_and, not_true, not_false_iff, if_true, if_false,
    List.foldl_cons, List.foldl_nil, List.map_cons, List.map_nil,
    List.filter_cons, List.filter_nil, List.append_nil, List.nil_append,
    List.cons_append, List.length_cons, List.length_nil, List.getD_nil,
    List.getD_cons_zero, List.set_cons_zero, List.set_nil, List.find?_cons,
    List.find?_nil, List.sum_cons, List.sum_nil, List.reverse_cons,
    List.reverse_nil, Option.getD_some, Option.getD_none, Option.isSome_some, Option.isSome_none,
    beq_iff_eq, beq_self_eq_true, ne_eq, ite_true, ite_false, decide_True, decide_False,
    Nat.add_eq, Nat.add_zero, Nat.zero_add,
    Option.some.injEq, List.range_zero, List.range_succ, ge_iff_le, max_def,
    getElemL1, getElemL2, getElemL3, getDL1, getDL2, getDL3, setL1, setL2, setL3, List.replicate]

set_option maxHeartbeats 1000000 in
/-- Iteration 2 of run A: no lake (fast path), the tree is stable. -/
theorem exTreeA2 : StreamTree.construct 4 [0, 3/2, 1, 5/4] exGraph [0, 1] = [0, 1, 0, 2] := by
  norm_num only [StreamTree.construct, StreamTree.createOutletTable,
    StreamTree.constructInitialStreamTree, StreamTree.steepestDescent,
    StreamTree.findRootsWithLakes, StreamTree.chainWalk, StreamTree.assignPath,
    StreamTree.removeLakesFromStreamTree, StreamTree.carveLoop, StreamTree.carveFuel,
    StreamTree.heapPop, StreamTree.processNeighbor, StreamTree.flipFlow,
    exNbrs0, exNbrs1, exNbrs2, exNbrs3,
    someNeNoneIff, noneNeSomeIff,
    Bool.false_eq_true, Bool.true_eq_false, eq_self_iff_true, and_true, true_and,
    and_false, false_and, not_true, not_false_iff, if_true, if_false,
    List.foldl_cons, List.foldl_nil, List.map_cons, List.map_nil,
    List.filter_cons, List.filter_nil, List.append_nil, List.nil_append,
    List.cons_append, List.length_cons, List.length_nil, List.getD_nil,
    List.getD_cons_zero, List.set_cons_zero, List.set_nil, List.find?_cons,
    List.find?_nil, List.sum_cons, List.sum_nil, List.reverse_cons,
    List.reverse_nil, Option.getD_some, Option.getD_none, Option.isSome_some, Option.isSome_none,
    beq_iff_eq, beq_self_eq_true, ne_eq, ite_true, ite_false, decide_True, decide_False,
    Nat.add_eq, Nat.add_zero, Nat.zero_add,
    Option.some.injEq, List.range_zero, List.range_succ, ge_iff_le, max_def,
    getElemL1, getElemL2, getElemL3, getDL1, getDL2, getDL3, setL1, setL2, setL3, List.replicate]

set_option maxHeartbeats 1000000 in
theorem exIterA2 : solveIteration 4 exGraph (exParams 0) [1, 1, 1, 1] [0, 1] [0, 3/2, 1, 5/4] = ⟨[3, 1, 2, 1], [1, 1, 2, 6], [0, 3/2, 1, 5/4], false⟩ := by
  norm_num only [exTreeA2, exBasinA0, exBasinA1, solveIteration, processOutlet, exParams,
    TopographicalParameters.default, edgeDistance, Graph.hasEdge,
    sptOne, sptTwo, sptThree, exNbrs0, exNbrs1, exNbrs2, exNbrs3,
    someNeNoneIff, noneNeSomeIff,
    Bool.false_eq_true, Bool.true_eq_false, eq_self_iff_true, and_true, true_and,
    and_false, false_and, not_true, not_false_iff, if_true, if_false,
    List.foldl_cons, List.foldl_nil, List.map_cons, List.map_nil,
    List.filter_cons, List.filter_nil, List.append_nil, List.nil_append,
    List.cons_append, List.length_cons, List.length_nil, List.getD_nil,
    List.getD_cons_zero, List.set_cons_zero, List.set_nil, List.find?_cons,
    List.find?_nil, List.sum_cons, List.sum_nil, List.reverse_cons,
    List.reverse_nil, Option.getD_some, Option.getD_none, Option.isSome_some, Option.isSome_none,
    beq_iff_eq, beq_self_eq_true, ne_eq, ite_true, ite_false, decide_True, decide_False,
    Nat.add_eq, Nat.add_zero, Nat.zero_add,
    Option.some.injEq, List.range_zero, List.range_succ, ge_iff_le, max_def,
    getElemL1, getElemL2, getElemL3, getDL1, getDL2, getDL3, setL1, setL2, setL3, List.replicate]

theorem exRunA : solveLoop 4 exGraph (exParams 0) [1, 1, 1, 1] [0, 1] none 10 0 0 [0, 3/2, 1, -1] = ⟨[0, 3/2, 1, 5/4], 2, true⟩ := by
  norm_num only [solveLoop, exIterA1, exIterA2,
    someNeNoneIff, noneNeSomeIff,
    Bool.false_eq_true, Bool.true_eq_false, eq_self_iff_true, and_true, true_and,
    and_false, false_and, not_true, not_false_iff, if_true, if_false,
    List.foldl_cons, List.foldl_nil, List.map_cons, List.map_nil,
    List.filter_cons, List.filter_nil, List.append_nil, List.nil_append,
    List.cons_append, List.length_cons, List.length_nil, List.getD_nil,
    List.getD_cons_zero, List.set_cons_zero, List.set_nil, List.find?_cons,
    List.find?_nil, List.sum_cons, List.sum_nil, List.reverse_cons,
    List.reverse_nil, Option.getD_some, Option.getD_none, Option.isSome_some, Option.isSome_none,
    beq_iff_eq, beq_self_eq_true, ne_eq, ite_true, ite_false, decide_True, decide_False,
    Nat.add_eq, Nat.add_zero, Nat.zero_add,
    Option.some.injEq, List.range_zero, List.range_succ, ge_iff_le, max_def,
    getElemL1, getElemL2, getElemL3, getDL1, getDL2, getDL3, setL1, setL2, setL3, List.replicate]

set_option maxHeartbeats 1000000 in
/-- Iteration 1 of run B: the shift changes the carving pop order (outlet 1's seed priority -(37/2) now beats the ridge element of site 2), so the lake at site 3 is rerouted into outlet 1 instead of site 2. -/
theorem exTreeB1 : StreamTree.construct 4 [-20, -(37/2), -19, -21] exGraph [0, 1] = [0, 1, 0, 1] := by
  norm_num only [StreamTree.construct, StreamTree.createOutletTable,
    StreamTree.constructInitialStreamTree, StreamTree.steepestDescent,
    StreamTree.findRootsWithLakes, StreamTree.chainWalk, StreamTree.assignPath,
    StreamTree.removeLakesFromStreamTree, StreamTree.carveLoop, StreamTree.carveFuel,
    StreamTree.heapPop, StreamTree.processNeighbor, StreamTree.flipFlow,
    exNbrs0, exNbrs1, exNbrs2, exNbrs3,
    someNeNoneIff, noneNeSomeIff,
    Bool.false_eq_true, Bool.true_eq_false, eq_self_iff_true, and_true, true_and,
    and_false, false_and, not_true, not_false_iff, if_true, if_false,
    List.foldl_cons, List.foldl_nil, List.map_cons, List.map_nil,
    List.filter_cons, List.filter_nil, List.append_nil, List.nil_append,
    List.cons_append, List.length_cons, List.length_nil, List.getD_nil,
    List.getD_cons_zero, List.set_cons_zero, List.set_nil, List.find?_cons,
    List.find?_nil, List.sum_cons, List.sum_nil, List.reverse_cons,
    List.reverse_nil, Option.getD_some, Option.getD_none, Option.isSome_some, Option.isSome_none,
    beq_iff_eq, beq_self_eq_true, ne_eq, ite_true, ite_false, decide_True, decide_False,
    Nat.add_eq, Nat.add_zero, Nat.zero_add,
    Option.some.injEq, List.range_zero, List.range_succ, ge_iff_le, max_def,
    getElemL1, getElemL2, getElemL3, getDL1, getDL2, getDL3, setL1, setL2, setL3, List.replicate]

theorem exBasinB0 : DrainageBasin.construct 0 [0, 1, 0, 1] exGraph = [0, 2] := by
  norm_num only [DrainageBasin.construct, DrainageBasin.basinLoop, DrainageBasin.basinChildren,
    exNbrs0, exNbrs1, exNbrs2, exNbrs3,
    someNeNoneIff, noneNeSomeIff,
    Bool.false_eq_true, Bool.true_eq_false, eq_self_iff_true, and_true, true_and,
    and_false, false_and, not_true, not_false_iff, if_true, if_false,
    List.foldl_cons, List.foldl_nil, List.map_cons, List.map_nil,
    List.filter_cons, List.filter_nil, List.append_nil, List.nil_append,
    List.cons_append, List.length_cons, List.length_nil, List.getD_nil,
    List.getD_cons_zero, List.set_cons_zero, List.set_nil, List.find?_cons,
    List.find?_nil, List.sum_cons, List.sum_nil, List.reverse_cons,
    List.reverse_nil, Option.getD_some, Option.getD_none, Option.isSome_some, Option.isSome_none,
    beq_iff_eq, beq_self_eq_true, ne_eq, ite_true, ite_false, decide_True, decide_False,
    Nat.add_eq, Nat.add_zero, Nat.zero_add,
    Option.some.injEq, List.range_zero, List.range_succ, ge_iff_le, max_def,
    getElemL1, getElemL2, getElemL3, getDL1, getDL2, getDL3, setL1, setL2, setL3, List.replicate]

theorem exBasinB1 : DrainageBasin.construct 1 [0, 1, 0, 1] exGraph = [1, 3] := by
  norm_num only [DrainageBasin.construct, DrainageBasin.basinLoop, DrainageBasin.basinChildren,
    exNbrs0, exNbrs1, exNbrs2, exNbrs3,
    someNeNoneIff, noneNeSomeIff,
    Bool.false_eq_true, Bool.true_eq_false, eq_self_iff_true, and_true, true_and,
    and_false, false_and, not_true, not_false_iff, if_true, if_false,
    List.foldl_cons, List.foldl_nil, List.map_cons, List.map_nil,
    List.filter_cons, List.filter_nil, List.append_nil, List.nil_append,
    List.cons_append, List.length_cons, List.length_nil, List.getD_nil,
    List.getD_cons_zero, List.set_cons_zero, List.set_nil, List.find?_cons,
    List.find?_nil, List.sum_cons, List.sum_nil, List.reverse_cons,
    List.reverse_nil, Option.getD_some, Option.getD_none, Option.isSome_some, Option.isSome_none,
    beq_iff_eq, beq_self_eq_true, ne_eq, ite_true, ite_false, decide_True, decide_False,
    Nat.add_eq, Nat.add_zero, Nat.zero_add,
    Option.some.injEq, List.range_zero, List.range_succ, ge_iff_le, max_def,
    getElemL1, getElemL2, getElemL3, getDL1, getDL2, getDL3, setL1, setL2, setL3, List.replicate]

set_option maxHeartbeats 1000000 in
theorem exIterB1 : solveIteration 4 exGraph (exParams (-20)) [1, 1, 1, 1] [0, 1] [-20, -(37/2), -19, -21] = ⟨[2, 2, 1, 1], [1, 1, 2, 2], [-20, -(37/2), -19, -(73/4)], true⟩ := by
  norm_num only [exTreeB1, exBasinB0, exBasinB1, solveIteration, processOutlet, exParams,
    TopographicalParameters.default, edgeDistance, Graph.hasEdge,
    sptOne, sptTwo, sptThree, exNbrs0, exNbrs1, exNbrs2, exNbrs3,
    someNeNoneIff, noneNeSomeIff,
    Bool.false_eq_true, Bool.true_eq_false, eq_self_iff_true, and_true, true_and,
    and_false, false_and, not_true, not_false_iff, if_true, if_false,
    List.foldl_cons, List.foldl_nil, List.map_cons, List.map_nil,
    List.filter_cons, List.filter_nil, List.append_nil, List.nil_append,
    List.cons_append, List.length_cons, List.length_nil, List.getD_nil,
    List.getD_cons_zero, List.set_cons_zero, List.set_nil, List.find?_cons,
    List.find?_nil, List.sum_cons, List.sum_nil, List.reverse_cons,
    List.reverse_nil, Option.getD_some, Option.getD_none, Option.isSome_some, Option.isSome_none,
    beq_iff_eq, beq_self_eq_true, ne_eq, ite_true, ite_false, decide_True, decide_False,
    Nat.add_eq, Nat.add_zero, Nat.zero_add,
    Option.some.injEq, List.range_zero, List.range_succ, ge_iff_le, max_def,
    getElemL1, getElemL2, getElemL3, getDL1, getDL2, getDL3, setL1, setL2, setL3, List.replicate]

set_option maxHeartbeats 1000000 in
/-- Iteration 2 of run B: no lake (fast path); site 3's steepest descent now prefers outlet 1 (slope 1/4 over distance 1) to site 2 (slope 3/16 over distance 4), keeping the carved tree. -/
theorem exTreeB2 : StreamTree.construct 4 [-20, -(37/2), -19, -(73/4)] exGraph [0, 1] = [0, 1, 0, 1] := by
  norm_num only [StreamTree.construct, StreamTree.createOutletTable,
    StreamTree.constructInitialStreamTree, StreamTree.steepestDescent,
    StreamTree.findRootsWithLakes, StreamTree.chainWalk, StreamTree.assignPath,
    StreamTree.removeLakesFromStreamTree, StreamTree.carveLoop, StreamTree.carveFuel,
    StreamTree.heapPop, StreamTree.processNeighbor, StreamTree.flipFlow,
    exNbrs0, exNbrs1, exNbrs2, exNbrs3,
    someNeNoneIff, noneNeSomeIff,
    Bool.false_eq_true, Bool.true_eq_false, eq_self_iff_true, and_true, true_and,
    and_false, false_and, not_true, not_false_iff, if_true, if_false,
    List.foldl_cons, List.foldl_nil, List.map_cons, List.map_nil,
    List.filter_cons, List.filter_nil, List.append_nil, List.nil_append,
    List.cons_append, List.length_cons, List.length_nil, List.getD_nil,
    List.getD_cons_zero, List.set_cons_zero, List.set_nil, List.find?_cons,
    List.find?_nil, List.sum_cons, List.sum_nil, List.reverse_cons,
    List.reverse_nil, Option.getD_some, Option.getD_none, Option.isSome_some, Option.isSome_none,
    beq_iff_eq, beq_self_eq_true, ne_eq, ite_true, ite_false, decide_True, decide_False,
    Nat.add_eq, Nat.add_zero, Nat.zero_add,
    Option.some.injEq, List.range_zero, List.range_succ, ge_iff_le, max_def,
    getElemL1, getElemL2, getElemL3, getDL1, getDL2, getDL3, setL1, setL2, setL3, List.replicate]

set_option maxHeartbeats 1000000 in
theorem exIterB2 : solveIteration 4 exGraph (exParams (-20)) [1, 1, 1, 1] [0, 1] [-20, -(37/2), -19, -(73/4)] = ⟨[2, 2, 1, 1], [1, 1, 2, 2], [-20, -(37/2), -19, -(73/4)], false⟩ := by
  norm_num only [exTreeB2, exBasinB0, exBasinB1, solveIteration, processOutlet, exParams,
    TopographicalParameters.default, edgeDistance, Graph.hasEdge,
    sptOne, sptTwo, sptThree, exNbrs0, exNbrs1, exNbrs2, exNbrs3,
    someNeNoneIff, noneNeSomeIff,
    Bool.false_eq_true, Bool.true_eq_false, eq_self_iff_true, and_true, true_and,
    and_false, false_and, not_true, not_false_iff, if_true, if_false,
    List.foldl_cons, List.foldl_nil, List.map_cons, List.map_nil,
    List.filter_cons, List.filter_nil, List.append_nil, List.nil_append,
    List.cons_append, List.length_cons, List.length_nil, List.getD_nil,
    List.getD_cons_zero, List.set_cons_zero, List.set_nil, List.find?_cons,
    List.find?_nil, List.sum_cons, List.sum_nil, List.reverse_cons,
    List.reverse_nil, Option.getD_some, Option.getD_none, Option.isSome_some, Option.isSome_none,
    beq_iff_eq, beq_self_eq_true, ne_eq, ite_true, ite_false, decide_True, decide_False,
    Nat.add_eq, Nat.add_zero, Nat.zero_add,
    Option.some.injEq, List.range_zero, List.range_succ, ge_iff_le, max_def,
    getElemL1, getElemL2, getElemL3, getDL1, getDL2, getDL3, setL1, setL2, setL3, List.replicate]

theorem exRunB : solveLoop 4 exGraph (exParams (-20)) [1, 1, 1, 1] [0, 1] none 10 0 0 [-20, -(37/2), -19, -21] = ⟨[-20, -(37/2), -19, -(73/4)], 2, true⟩ := by
  norm_num only [solveLoop, exIterB1, exIterB2,
    someNeNoneIff, noneNeSomeIff,
    Bool.false_eq_true, Bool.true_eq_false, eq_self_iff_true, and_true, true_and,
    and_false, false_and, not_true, not_false_iff, if_true, if_false,
    List.foldl_cons, List.foldl_nil, List.map_cons, List.map_nil,
    List.filter_cons, List.filter_nil, List.append_nil, List.nil_append,
    List.cons_append, List.length_cons, List.length_nil, List.getD_nil,
    List.getD_cons_zero, List.set_cons_zero, List.set_nil, List.find?_cons,
    List.find?_nil, List.sum_cons, List.sum_nil, List.reverse_cons,
    List.reverse_nil, Option.getD_some, Option.getD_none, Option.isSome_some, Option.isSome_none,
    beq_iff_eq, beq_self_eq_true, ne_eq, ite_true, ite_false, decide_True, decide_False,
    Nat.add_eq, Nat.add_zero, Nat.zero_add,
    Option.some.injEq, List.range_zero, List.range_succ, ge_iff_le, max_def,
    getElemL1, getElemL2, getElemL3, getDL1, getDL2, getDL3, setL1, setL2, setL3, List.replicate]

/-- Run A stopped by `max_iteration = 1`: the first iteration still reports changes, so the bound fires and the loop exits without having converged. -/
theorem exRunAMi1 : solveLoop 4 exGraph (exParams 0) [1, 1, 1, 1] [0, 1] (some 1) 2 0 0 [0, 3/2, 1, -1] = ⟨[0, 3/2, 1, 5/4], 1, false⟩ := by
  norm_num only [solveLoop, exIterA1,
    someNeNoneIff, noneNeSomeIff,
    Bool.false_eq_true, Bool.true_eq_false, eq_self_iff_true, and_true, true_and,
    and_false, false_and, not_true, not_false_iff, if_true, if_false,
    List.foldl_cons, List.foldl_nil, List.map_cons, List.map_nil,
    List.filter_cons, List.filter_nil, List.append_nil, List.nil_append,
    List.cons_append, List.length_cons, List.length_nil, List.getD_nil,
    List.getD_cons_zero, List.set_cons_zero, List.set_nil, List.find?_cons,
    List.find?_nil, List.sum_cons, List.sum_nil, List.reverse_cons,
    List.reverse_nil, Option.getD_some, Option.getD_none, Option.isSome_some, Option.isSome_none,
    beq_iff_eq, beq_self_eq_true, ne_eq, ite_true, ite_false, decide_True, decide_False,
    Nat.add_eq, Nat.add_zero, Nat.zero_add,
    Option.some.injEq, List.range_zero, List.range_succ, ge_iff_le, max_def,
    getElemL1, getElemL2, getElemL3, getDL1, getDL2, getDL3, setL1, setL2, setL3, List.replicate]


end Fastlem

namespace Fastlem

/-! ## Generate-level evaluation helpers -/

theorem exParamsLen (c : ℚ) : (exParams c).length = 4 := by
  norm_num only [exParams, List.length_cons, List.length_nil]

theorem exGenerateA : generate (fun _ => 0) 10 (exGen 0) = Except.ok [0, 3/2, 1, 5/4] := by
  norm_num only [generate, exGen, exOutlets, exInitA, exRunA, exParamsLen,
    ne_eq, not_true, not_false_iff, if_true, if_false, eq_self_iff_true, ite_true, ite_false]

theorem exGenerateB :
    generate (fun _ => 0) 10 (exGen (-20)) = Except.ok [-20, -(37/2), -19, -(73/4)] := by
  norm_num only [generate, exGen, exOutlets, exInitB, exRunB, exParamsLen,
    ne_eq, not_true, not_false_iff, if_true, if_false, eq_self_iff_true, ite_true, ite_false]

theorem exGenerateAMi1 : generate (fun _ => 0) 2 (exGenMI 0 1) = Except.ok [0, 3/2, 1, 5/4] := by
  norm_num only [generate, exGenMI, exOutlets, exInitA, exRunAMi1, exParamsLen,
    ne_eq, not_true, not_false_iff, if_true, if_false, eq_self_iff_true, ite_true, ite_false]

/-- With an empty outlet list an iteration processes no basin: the state is
returned unchanged with `changed = false`. -/
theorem solveIteration_no_outlets (num : ℕ) (g : Graph)
    (params : List TopographicalParameters) (areas : List ℚ) (elev : List ℚ) :
    solveIteration num g params areas [] elev =
      ⟨areas, List.replicate num 0, elev, false⟩ := rfl

/-! ## Claim C9 -/

/-- C9: `TerrainGenerator::generate` is deterministic.  The embedding threads an
explicit ambient-entropy environment `e` through `generate` — the place a
nondeterministic implementation could draw randomness from — and the source
never consults it (its RNG is seeded from the constant `[0u8; 32]`, modelled by
the fixed `stdRngStream`).  Consequently two runs with identical model,
parameters and `max_iteration` (here: identical `TerrainGenerator`
configurations, and the same iteration budget for the embedded loop) produce
identical output elevation sequences, whatever the entropy environments. -/
theorem C9_generate_deterministic (e₁ e₂ : ℕ → ℚ) (fuel : ℕ)
    (gen₁ gen₂ : TerrainGenerator) (h : gen₁ = gen₂) :
    generate e₁ fuel gen₁ = generate e₂ fuel gen₂ := by
  subst h; rfl

/-- Witness for C9 at a concrete configuration and two different entropy
environments. -/
theorem C9_generate_deterministic_witness :
    generate (fun _ => 0) 10 (exGen 0) = generate (fun n => (n : ℚ) + 37) 10 (exGen 0) :=
  C9_generate_deterministic (fun _ => 0) (fun n => (n : ℚ) + 37) 10 (exGen 0) (exGen 0) rfl

/-! ## Claim C2 -/

/-- C2 counterexample: a configuration whose effective outlet set is empty (no
parameter sets `is_outlet`, and the model's `default_outlets` list is empty).
The claim says `generate` signals a fatal configuration error; instead it
returns a normal `Except.ok` carrying the (perturbed) base elevations — no
`GenerationError` variant for an empty outlet set even exists. -/
theorem C2_counterexample :
    generate (fun _ => 0) 1 exNoOutletGen = Except.ok [5, 7] := by
  norm_num only [generate, exNoOutletGen, effectiveOutlets, initialElevations,
    stdRngStream, EPSILON, List.enum, List.enumFrom, solveLoop,
    solveIteration_no_outlets, List.isEmpty_nil, List.isEmpty_cons,
    List.filter_cons, List.filter_nil, List.map_cons, List.map_nil,
    List.length_cons, List.length_nil, Bool.false_eq_true, Bool.true_eq_false,
    ne_eq, not_true, not_false_iff, if_true, if_false, eq_self_iff_true,
    ite_true, ite_false, Except.ok.injEq]

/-- C2 (amended): if the effective outlet set is empty, `generate` does not
signal an error: the single iteration processes no basin, nothing changes, and
the initial (perturbed base) elevation field is returned through the ordinary
`Except.ok` path. -/
theorem C2_amended_empty_outlets_returns_ok (e : ℕ → ℚ) (fuel : ℕ)
    (model : ModelData) (params : List TopographicalParameters) (mi : Option ℕ)
    (hlen : params.length = model.num)
    (hout : effectiveOutlets params model.default_outlets = []) :
    generate e (fuel + 1) ⟨some model, some params, mi⟩ =
      Except.ok (initialElevations params) := by
  have hne : ¬(params.length ≠ model.num) := by simp [hlen]
  simp only [generate, if_neg hne, hout, solveLoop, solveIteration_no_outlets,
    eq_self_iff_true, if_true, ite_true]

/-- Witness for the amended C2 at the concrete empty-outlet configuration. -/
theorem C2_amended_empty_outlets_returns_ok_witness :
    generate (fun _ => 0) 1 exNoOutletGen =
      Except.ok (initialElevations [⟨5, 1, 1, false, none⟩, ⟨7, 1, 1, false, none⟩]) :=
  C2_amended_empty_outlets_returns_ok (fun _ => 0) 0
    ⟨2, [1, 1], ex1Graph, []⟩ [⟨5, 1, 1, false, none⟩, ⟨7, 1, 1, false, none⟩] none
    (by norm_num only [List.length_cons, List.length_nil])
    (by norm_num only [effectiveOutlets, List.enum, List.enumFrom, List.filter_cons,
      List.filter_nil, List.map_cons, List.map_nil, List.isEmpty_nil, if_true, ite_true,
      eq_self_iff_true, Bool.false_eq_true, Bool.true_eq_false, if_false, ite_false])

/-! ## Claim C3 -/

/-- C3 counterexample: run A on `exGraph` with `max_iteration = 1` stops at the
bound while sites are still changing (`converged = false` in the embedding's
instrumentation), yet `generate` returns a plain `Except.ok` with only the
elevation list — the same constructor, carrying the same kind of payload, as
the fully converged run of the same configuration without a bound.  No
"did not converge" signal distinguishable by the caller exists (the return type
`Except GenerationError (List ℚ)` has nowhere to put one). -/
theorem C3_counterexample :
    (solveLoop 4 exGraph (exParams 0) [1, 1, 1, 1] [0, 1] (some 1) 2 0 0
        [0, 3/2, 1, -1]).converged = false
    ∧ generate (fun _ => 0) 2 (exGenMI 0 1) = Except.ok [0, 3/2, 1, 5/4]
    ∧ (solveLoop 4 exGraph (exParams 0) [1, 1, 1, 1] [0, 1] none 10 0 0
        [0, 3/2, 1, -1]).converged = true
    ∧ generate (fun _ => 0) 10 (exGen 0) = Except.ok [0, 3/2, 1, 5/4] :=
  ⟨by rw [exRunAMi1], exGenerateAMi1, by rw [exRunA], exGenerateA⟩

/-- C3 (amended): hitting `max_iteration` is indeed not treated as an error —
the last computed field is returned — but there is no explicit "did not
converge" signal: a bounded run that stops non-converged still returns the bare
`Except.ok` with the last elevation field, indistinguishable in type and shape
from a converged result. -/
theorem C3_amended_bound_returns_ok_without_signal (e : ℕ → ℚ) (fuel : ℕ)
    (model : ModelData) (params : List TopographicalParameters) (k : ℕ)
    (hlen : params.length = model.num)
    (hnc : (solveLoop model.num model.graph params model.areas
        (effectiveOutlets params model.default_outlets) (some k) fuel 0 0
        (initialElevations params)).converged = false) :
    generate e fuel ⟨some model, some params, some k⟩ =
      Except.ok ((solveLoop model.num model.graph params model.areas
        (effectiveOutlets params model.default_outlets) (some k) fuel 0 0
        (initialElevations params)).elevations) := by
  have hne : ¬(params.length ≠ model.num) := by simp [hlen]
  simp only [generate, if_neg hne]

/-- Witness for the amended C3: the concrete bounded run A. -/
theorem C3_amended_bound_returns_ok_without_signal_witness :
    generate (fun _ => 0) 2 (exGenMI 0 1) =
      Except.ok ((solveLoop 4 exGraph (exParams 0) [1, 1, 1, 1]
        (effectiveOutlets (exParams 0) []) (some 1) 2 0 0
        (initialElevations (exParams 0))).elevations) := by
  have h := C3_amended_bound_returns_ok_without_signal (fun _ => 0) 2
    ⟨4, [1, 1, 1, 1], exGraph, []⟩ (exParams 0) 1
    (by rw [exParamsLen])
    (by rw [exOutlets, exInitA, exRunAMi1])
  exact h

/-! ## Claim C8 (counterexample) -/

/-- C8 counterexample: adding `c = -20` to every base elevation of the
`exGraph` configuration (outlets included) does not shift the converged output
by `c`.  The shift reorders the lake-carving priority queue (outlet seeds are
seeded with their absolute elevations while ridge elements carry elevation
differences), so the lake at site 3 is carved into outlet 1 instead of site 2;
both runs converge (the instrumentation flag is `true`), yet site 3's converged
elevation is `-(73/4)` where the claim demands `5/4 + (-20) = -(75/4)`. -/
theorem C8_counterexample :
    generate (fun _ => 0) 10 (exGen 0) = Except.ok [0, 3/2, 1, 5/4]
    ∧ generate (fun _ => 0) 10 (exGen (-20)) = Except.ok [-20, -(37/2), -19, -(73/4)]
    ∧ (solveLoop 4 exGraph (exParams 0) [1, 1, 1, 1] [0, 1] none 10 0 0
        [0, 3/2, 1, -1]).converged = true
    ∧ (solveLoop 4 exGraph (exParams (-20)) [1, 1, 1, 1] [0, 1] none 10 0 0
        [-20, -(37/2), -19, -21]).converged = true
    ∧ ¬((-(73/4) : ℚ) = 5/4 + (-20)) :=
  ⟨exGenerateA, exGenerateB, by rw [exRunA], by rw [exRunB], by norm_num⟩

end Fastlem

namespace Fastlem

/-! ## Claim C10: solver loop iteration accounting -/

theorem solveLoop_some_zero_iterations (num : ℕ) (g : Graph)
    (params : List TopographicalParameters) (areas : List ℚ) (outlets : List ℕ)
    (fuel step count : ℕ) (elev : List ℚ) :
    (solveLoop num g params areas outlets (some 0) (fuel + 1) step count elev).iterations =
      count + 1 := by
  simp only [solveLoop]
  by_cases h : (solveIteration num g params areas outlets elev).changed = false
  · simp [h]
  · simp [h, Nat.zero_le]

theorem solveLoop_iterations_le (num : ℕ) (g : Graph)
    (params : List TopographicalParameters) (areas : List ℚ) (outlets : List ℕ)
    (k : ℕ) :
    ∀ (fuel step count : ℕ) (elev : List ℚ), step < k →
      (solveLoop num g params areas outlets (some k) fuel step count elev).iterations ≤
        count + (k - step) := by
  intro fuel
  induction fuel with
  | zero =>
    intro step count elev _
    simp only [solveLoop]
    omega
  | succ fuel ih =>
    intro step count elev hstep
    simp only [solveLoop]
    cases h : (solveIteration num g params areas outlets elev).changed with
    | false =>
      simp only [eq_self_iff_true, if_true, ite_true]
      show count + 1 ≤ count + (k - step)
      omega
    | true =>
      simp only [Bool.true_eq_false, if_false, ite_false]
      by_cases h2 : step + 1 ≥ k
      · rw [if_pos h2]
        show count + 1 ≤ count + (k - step)
        omega
      · rw [if_neg h2]
        have := ih (step + 1) (count + 1)
          (solveIteration num g params areas outlets elev).elevations (by omega)
        omega

set_option maxHeartbeats 1000000 in
theorem solveLoop_stops_at_first_stable (num : ℕ) (g : Graph)
    (params : List TopographicalParameters) (areas : List ℚ) (outlets : List ℕ)
    (k : ℕ) :
    ∀ (n fuel step count : ℕ) (elev : List ℚ),
      (∀ m, m < n → changedAt num g params areas outlets m elev = true) →
      changedAt num g params areas outlets n elev = false →
      step + n < k → n + 1 ≤ fuel →
      solveLoop num g params areas outlets (some k) fuel step count elev =
        ⟨iterateElev num g params areas outlets (n + 1) elev, count + n + 1, true⟩ := by
  intro n
  induction n with
  | zero =>
    intro fuel step count elev _ hstable _ hfuel
    cases fuel with
    | zero => exact absurd hfuel (by omega)
    | succ fuel' =>
      have h0 : (solveIteration num g params areas outlets elev).changed = false := by
        simpa only [changedAt, iterateElev, Function.iterate_zero, id_eq] using hstable
      simp only [solveLoop, h0, if_true, eq_self_iff_true, ite_true]
      have hit : iterateElev num g params areas outlets (0 + 1) elev =
          (solveIteration num g params areas outlets elev).elevations := by
        simp only [iterateElev, Nat.zero_add, Function.iterate_one]
      rw [hit]
  | succ n ih =>
    intro fuel step count elev hchanged hstable hbound hfuel
    cases fuel with
    | zero => exact absurd hfuel (by omega)
    | succ fuel' => ?_
    have h0 : (solveIteration num g params areas outlets elev).changed = true := by
      simpa only [changedAt, iterateElev, Function.iterate_zero, id_eq]
        using hchanged 0 (Nat.succ_pos n)
    have h0' : ¬((solveIteration num g params areas outlets elev).changed = false) := by
      simp [h0]
    have hk : ¬(step + 1 ≥ k) := by omega
    have hb2 : step + 1 + n < k := by omega
    have hf2 : n + 1 ≤ fuel' := Nat.succ_le_succ_iff.mp hfuel
    simp only [solveLoop, h0, h0', Bool.true_eq_false, if_false, ite_false, hk]
    have hrec := ih fuel' (step + 1) (count + 1)
      (solveIteration num g params areas outlets elev).elevations
      (fun m hm => by
        have := hchanged (m + 1) (by omega)
        simpa only [changedAt, iterateElev, Function.iterate_succ_apply] using this)
      (by
        have := hstable
        simpa only [changedAt, iterateElev, Function.iterate_succ_apply] using this)
      hb2 hf2
    have hit : iterateElev num g params areas outlets (n + 1)
        (solveIteration num g params areas outlets elev).elevations =
        iterateElev num g params areas outlets (n + 1 + 1) elev :=
      (Function.iterate_succ_apply
        (fun e => (solveIteration num g params areas outlets e).elevations) (n + 1) elev).symm
    have harith : count + 1 + n + 1 = count + (n + 1) + 1 := by omega
    rw [hrec, hit, harith]

set_option maxHeartbeats 1000000 in
/-- C10: the solver loop always executes at least one full iteration before the
`max_iteration` bound is consulted, and the bound caps the iteration count:
(a) with `max_iteration = some 0`, exactly one iteration runs, whatever the
starting state; (b) with `max_iteration = some k`, `k ≥ 1`, at most `k`
iterations run; (c) the loop stops at the first iteration reporting no change
(when that happens at index `n` before the bound, exactly `n + 1` iterations
run and the loop exits through the converged branch). -/
theorem C10_iteration_accounting (num : ℕ) (g : Graph)
    (params : List TopographicalParameters) (areas : List ℚ) (outlets : List ℕ)
    (elev : List ℚ) :
    (∀ fuel, (solveLoop num g params areas outlets (some 0) (fuel + 1) 0 0 elev).iterations = 1)
    ∧ (∀ k fuel, 1 ≤ k →
        (solveLoop num g params areas outlets (some k) fuel 0 0 elev).iterations ≤ k)
    ∧ (∀ k n fuel,
        (∀ m, m < n → changedAt num g params areas outlets m elev = true) →
        changedAt num g params areas outlets n elev = false →
        n < k → n + 1 ≤ fuel →
        solveLoop num g params areas outlets (some k) fuel 0 0 elev =
          ⟨iterateElev num g params areas outlets (n + 1) elev, n + 1, true⟩) := by
  refine ⟨?_, ?_, ?_⟩
  · intro fuel
    simpa using solveLoop_some_zero_iterations num g params areas outlets fuel 0 0 elev
  · intro k fuel hk
    have := solveLoop_iterations_le num g params areas outlets k fuel 0 0 elev (by omega)
    omega
  · intro k n fuel hch hst hnk hfuel
    have := solveLoop_stops_at_first_stable num g params areas outlets k n fuel 0 0 elev
      hch hst (by omega) hfuel
    simpa using this

set_option maxHeartbeats 1000000 in
/-- Witness for C10 on the concrete run A configuration: one iteration with
`max_iteration = 0`; at most one with `max_iteration = 1`; and with
`max_iteration = 5` the loop stops after iteration 2, the first one reporting
no change. -/
theorem C10_iteration_accounting_witness :
    (solveLoop 4 exGraph (exParams 0) [1, 1, 1, 1] [0, 1] (some 0) 1 0 0
      [0, 3/2, 1, -1]).iterations = 1
    ∧ (solveLoop 4 exGraph (exParams 0) [1, 1, 1, 1] [0, 1] (some 1) 2 0 0
      [0, 3/2, 1, -1]).iterations ≤ 1
    ∧ solveLoop 4 exGraph (exParams 0) [1, 1, 1, 1] [0, 1] (some 5) 10 0 0
        [0, 3/2, 1, -1] =
      ⟨iterateElev 4 exGraph (exParams 0) [1, 1, 1, 1] [0, 1] 2 [0, 3/2, 1, -1], 2, true⟩ := by
  obtain ⟨h1, h2, h3⟩ :=
    C10_iteration_accounting 4 exGraph (exParams 0) [1, 1, 1, 1] [0, 1] [0, 3/2, 1, -1]
  refine ⟨h1 0, h2 1 2 (le_refl 1), h3 5 1 10 ?_ ?_ (by omega) (by omega)⟩
  · intro m hm
    interval_cases m
    simp only [changedAt, iterateElev, Function.iterate_zero, id_eq, exIterA1]
  · simp only [changedAt, iterateElev, Function.iterate_one, exIterA1, exIterA2]

end Fastlem

namespace Fastlem

/-! ## Claim C5: basin traversal order -/

theorem basinChildren_next (next : List ℕ) (g : Graph) (it j : ℕ)
    (hj : j ∈ DrainageBasin.basinChildren next g it) : nextF next j = it := by
  simp only [DrainageBasin.basinChildren, List.mem_map, List.mem_filter] at hj
  obtain ⟨ja, ⟨_, hdec⟩, rfl⟩ := hj
  exact of_decide_eq_true hdec

theorem parentEarlier_append_children (next : List ℕ) (g : Graph) (t : List ℕ) (i : ℕ)
    (hi : i < t.length) (hpe : parentEarlier next t) :
    parentEarlier next (t ++ DrainageBasin.basinChildren next g (t.getD i 0)) := by
  intro p hp hp0
  by_cases hcase : p < t.length
  · obtain ⟨q, hq, hqe⟩ := hpe p hcase hp0
    refine ⟨q, hq, ?_⟩
    rw [List.getD_append _ _ _ _ (lt_trans hq hcase), List.getD_append _ _ _ _ hcase, hqe]
  · push_neg at hcase
    refine ⟨i, lt_of_lt_of_le hi hcase, ?_⟩
    rw [List.getD_append _ _ _ _ hi, List.getD_append_right _ _ _ _ hcase]
    have hlen : p - t.length < (DrainageBasin.basinChildren next g (t.getD i 0)).length := by
      rw [List.length_append] at hp
      omega
    have hmem : (DrainageBasin.basinChildren next g (t.getD i 0)).getD (p - t.length) 0 ∈
        DrainageBasin.basinChildren next g (t.getD i 0) := by
      rw [List.getD_eq_getElem _ _ hlen]
      exact List.getElem_mem _
    exact (basinChildren_next next g _ _ hmem).symm

theorem head?_append_left (t u : List α) (a : α) (h : t.head? = some a) :
    (t ++ u).head? = some a := by
  cases t with
  | nil => simp at h
  | cons x xs => simpa using h

theorem basinLoop_spec (next : List ℕ) (g : Graph) :
    ∀ (fuel i : ℕ) (t : List ℕ) (a : ℕ), i < t.length → t.head? = some a →
      parentEarlier next t →
      (DrainageBasin.basinLoop next g fuel i t).head? = some a ∧
      parentEarlier next (DrainageBasin.basinLoop next g fuel i t) := by
  intro fuel
  induction fuel with
  | zero => intro i t a _ hh hpe; exact ⟨hh, hpe⟩
  | succ fuel ih =>
    intro i t a hi hh hpe
    simp only [DrainageBasin.basinLoop]
    have hpe' := parentEarlier_append_children next g t i hi hpe
    have hh' := head?_append_left t (DrainageBasin.basinChildren next g (t.getD i 0)) a hh
    by_cases hterm : i + 1 ≥ (t ++ DrainageBasin.basinChildren next g (t.getD i 0)).length
    · rw [if_pos hterm]
      exact ⟨hh', hpe'⟩
    · rw [if_neg hterm]
      exact ih (i + 1) _ a (by rw [List.length_append] at hterm ⊢; omega) hh' hpe'

/-- C5: for every graph, flow assignment and outlet, the traversal produced by
`DrainageBasin::construct` starts at the outlet, and every other element of the
sequence is preceded, strictly earlier in the sequence, by the site it flows
into (`next` of it) — the "upstream" order is a valid topological order, and
its reverse serves as the "downstream" order.  This holds unconditionally, in
particular for every valid (cycle-free, outlet-rooted) flow assignment as the
claim states. -/
theorem C5_basin_traversal_topological_order (g : Graph) (next : List ℕ) (outlet : ℕ) :
    (DrainageBasin.construct outlet next g).head? = some outlet ∧
    parentEarlier next (DrainageBasin.construct outlet next g) := by
  have h := basinLoop_spec next g next.length 0 [outlet] outlet (by simp) rfl
    (by intro p hp hp0; simp only [List.length_cons, List.length_nil] at hp; omega)
  exact h

end Fastlem

namespace Fastlem

/-! ## Claim C6: the initial stream tree is local steepest descent -/

theorem sdFold_spec (A : ℕ → ℚ) (ai : ℚ) :
    ∀ (l : List (ℕ × ℚ)) (acc : ℚ × ℕ),
      acc.1 ≤ (l.foldl (sdStep A ai) acc).1
      ∧ ((l.foldl (sdStep A ai) acc) = acc
          ∨ ∃ d, ((l.foldl (sdStep A ai) acc).2, d) ∈ l
              ∧ A (l.foldl (sdStep A ai) acc).2 < ai
              ∧ (l.foldl (sdStep A ai) acc).1 = (ai - A (l.foldl (sdStep A ai) acc).2) / d)
      ∧ (∀ ja ∈ l, A ja.1 < ai → (ai - A ja.1) / ja.2 ≤ (l.foldl (sdStep A ai) acc).1) := by
  intro l
  induction l with
  | nil =>
    intro acc
    refine ⟨le_refl _, Or.inl rfl, ?_⟩
    intro ja hja
    simp at hja
  | cons ja l ih =>
    intro acc
    simp only [List.foldl_cons]
    obtain ⟨ih1, ih2, ih3⟩ := ih (sdStep A ai acc ja)
    have hstep : acc.1 ≤ (sdStep A ai acc ja).1 ∧
        ((sdStep A ai acc ja) = acc ∨
          ((sdStep A ai acc ja) = ((ai - A ja.1) / ja.2, ja.1) ∧ A ja.1 < ai)) := by
      rw [sdStep]
      by_cases h1 : ai > A ja.1
      · rw [if_pos h1]
        by_cases h2 : (ai - A ja.1) / ja.2 > acc.1
        · rw [if_pos h2]
          exact ⟨le_of_lt h2, Or.inr ⟨rfl, h1⟩⟩
        · rw [if_neg h2]
          exact ⟨le_refl _, Or.inl rfl⟩
      · rw [if_neg h1]
        exact ⟨le_refl _, Or.inl rfl⟩
    refine ⟨le_trans hstep.1 ih1, ?_, ?_⟩
    · rcases ih2 with h | ⟨d, hd, hlt, hval⟩
      · rw [h]
        rcases hstep.2 with h2 | ⟨h2, hja⟩
        · exact Or.inl h2
        · refine Or.inr ⟨ja.2, ?_, ?_, ?_⟩
          · rw [h2]; exact List.mem_cons_self _ _
          · rw [h2]; exact hja
          · rw [h2]
      · exact Or.inr ⟨d, List.mem_cons_of_mem _ hd, hlt, hval⟩
    · intro jb hjb hlow
      rcases List.mem_cons.mp hjb with rfl | hjb2
      · by_cases h2 : (ai - A jb.1) / jb.2 > acc.1
        · have : (sdStep A ai acc jb).1 = (ai - A jb.1) / jb.2 := by
            rw [sdStep, if_pos hlow, if_pos h2]
          calc (ai - A jb.1) / jb.2 = (sdStep A ai acc jb).1 := this.symm
            _ ≤ _ := ih1
        · push_neg at h2
          calc (ai - A jb.1) / jb.2 ≤ acc.1 := h2
            _ ≤ (sdStep A ai acc jb).1 := hstep.1
            _ ≤ _ := ih1
      · exact ih3 jb hjb2 hlow

theorem steepestDescent_eq_fold (altitudes : List ℚ) (g : Graph) (i : ℕ) :
    StreamTree.steepestDescent altitudes g i =
      ((g.nbrs i).foldl
        (sdStep (fun j => altitudes.getD j 0) (altitudes.getD i 0)) ((0 : ℚ), i)).2 := rfl

theorem steepestDescent_spec (altitudes : List ℚ) (g : Graph) (i : ℕ)
    (hpos : ∀ ja ∈ g.nbrs i, 0 < ja.2) :
    ((∀ ja ∈ g.nbrs i, ¬(altitudes.getD ja.1 0 < altitudes.getD i 0))
      ∧ StreamTree.steepestDescent altitudes g i = i)
    ∨ (∃ d, (StreamTree.steepestDescent altitudes g i, d) ∈ g.nbrs i
        ∧ altitudes.getD (StreamTree.steepestDescent altitudes g i) 0 < altitudes.getD i 0
        ∧ ∀ ja ∈ g.nbrs i, altitudes.getD ja.1 0 < altitudes.getD i 0 →
            (altitudes.getD i 0 - altitudes.getD ja.1 0) / ja.2 ≤
            (altitudes.getD i 0 - altitudes.getD (StreamTree.steepestDescent altitudes g i) 0) / d) := by
  obtain ⟨h1, h2, h3⟩ := sdFold_spec (fun j => altitudes.getD j 0) (altitudes.getD i 0)
    (g.nbrs i) ((0 : ℚ), i)
  rw [steepestDescent_eq_fold]
  rcases h2 with heq | ⟨d, hd, hlt, hval⟩
  · left
    constructor
    · intro ja hja hlow
      have hslope := h3 ja hja hlow
      rw [heq] at hslope
      have hnum : 0 < altitudes.getD i 0 - altitudes.getD ja.1 0 := by linarith
      have := div_pos hnum (hpos ja hja)
      linarith
    · rw [heq]
  · right
    refine ⟨d, hd, hlt, ?_⟩
    intro ja hja hlow
    have := h3 ja hja hlow
    rw [hval] at this
    exact this

theorem getD_set_other (t : List α) (o i : ℕ) (v d : α) (h : o ≠ i) :
    (t.set o v).getD i d = t.getD i d := by
  by_cases hi : i < t.length
  · rw [List.getD_eq_getElem _ _ (by simpa using hi), List.getD_eq_getElem _ _ hi]
    exact List.getElem_set_ne h _
  · push_neg at hi
    rw [List.getD_eq_default _ _ (by simpa using hi), List.getD_eq_default _ _ hi]

theorem foldl_set_true_getD :
    ∀ (l : List ℕ) (t : List Bool) (i : ℕ), i < t.length → (∀ o ∈ l, o < t.length) →
      ((l.foldl (fun t o => t.set o true) t).getD i false = true ↔
        i ∈ l ∨ t.getD i false = true) := by
  intro l
  induction l with
  | nil =>
    intro t i hi _
    simp
  | cons o l ih =>
    intro t i hi hwf
    simp only [List.foldl_cons]
    rw [ih (t.set o true) i (by simpa using hi)
      (fun o' ho' => by simpa using hwf o' (List.mem_cons_of_mem _ ho'))]
    by_cases ho : i = o
    · subst ho
      have hset : (t.set i true).getD i false = true := by
        rw [List.getD_eq_getElem _ _ (by simpa using hi)]
        exact List.getElem_set_self (by simpa using hi)
      rw [hset]
      simp [List.mem_cons]
    · rw [getD_set_other t o i true false (fun hc => ho hc.symm)]
      constructor
      · rintro (h | h)
        · exact Or.inl (List.mem_cons_of_mem _ h)
        · exact Or.inr h
      · rintro (h | h)
        · rcases List.mem_cons.mp h with rfl | h2
          · exact absurd rfl ho
          · exact Or.inl h2
        · exact Or.inr h

theorem createOutletTable_getD (num : ℕ) (outlets : List ℕ) (i : ℕ) (hi : i < num)
    (hout : ∀ o ∈ outlets, o < num) :
    ((StreamTree.createOutletTable num outlets).getD i false = true) ↔ i ∈ outlets := by
  rw [StreamTree.createOutletTable,
    foldl_set_true_getD outlets (List.replicate num false) i (by simpa using hi)
      (fun o ho => by simpa using hout o ho)]
  have : (List.replicate num false).getD i false = false := by
    rw [List.getD_eq_getElem _ _ (by simpa using hi)]
    exact List.getElem_replicate ..
  simp [this]

theorem constructInitialStreamTree_getD (num : ℕ) (altitudes : List ℚ) (g : Graph)
    (isOutlet : List Bool) (i : ℕ) (hi : i < num) :
    (StreamTree.constructInitialStreamTree num altitudes g isOutlet).getD i i =
      if isOutlet.getD i false then i else StreamTree.steepestDescent altitudes g i := by
  rw [StreamTree.constructInitialStreamTree,
    List.getD_eq_getElem _ _ (by simpa using hi)]
  simp

theorem construct_of_no_lake (num : ℕ) (altitudes : List ℚ) (g : Graph) (outlets : List ℕ)
    (hnl : (StreamTree.findRootsWithLakes num (StreamTree.createOutletTable num outlets)
      (StreamTree.constructInitialStreamTree num altitudes g
        (StreamTree.createOutletTable num outlets))).2 = false) :
    StreamTree.construct num altitudes g outlets =
      StreamTree.constructInitialStreamTree num altitudes g
        (StreamTree.createOutletTable num outlets) := by
  rw [StreamTree.construct]
  simp only [hnl, eq_self_iff_true, if_true, ite_true]

/-- C6: whenever no lake is flagged, `StreamTree::construct` returns the
initial local-steepest-descent assignment, and that assignment satisfies the
claim: outlets are self-loops; a non-outlet with no strictly lower neighbor is
a self-loop; and a non-outlet with at least one strictly lower neighbor points
to a strictly lower neighbor maximizing `(elev[i]-elev[j])/distance(i,j)` over
all strictly lower neighbors. -/
theorem C6_initial_steepest_descent (num : ℕ) (altitudes : List ℚ) (g : Graph)
    (outlets : List ℕ)
    (hout : ∀ o ∈ outlets, o < num)
    (hpos : ∀ i, ∀ ja ∈ g.nbrs i, 0 < ja.2)
    (hnl : (StreamTree.findRootsWithLakes num (StreamTree.createOutletTable num outlets)
      (StreamTree.constructInitialStreamTree num altitudes g
        (StreamTree.createOutletTable num outlets))).2 = false)
    (i : ℕ) (hi : i < num) :
    (i ∈ outlets → (StreamTree.construct num altitudes g outlets).getD i i = i)
    ∧ (i ∉ outlets → (∀ ja ∈ g.nbrs i, ¬(altitudes.getD ja.1 0 < altitudes.getD i 0)) →
        (StreamTree.construct num altitudes g outlets).getD i i = i)
    ∧ (i ∉ outlets → (∃ ja ∈ g.nbrs i, altitudes.getD ja.1 0 < altitudes.getD i 0) →
        ∃ d, ((StreamTree.construct num altitudes g outlets).getD i i, d) ∈ g.nbrs i
          ∧ altitudes.getD ((StreamTree.construct num altitudes g outlets).getD i i) 0 <
              altitudes.getD i 0
          ∧ ∀ jb ∈ g.nbrs i, altitudes.getD jb.1 0 < altitudes.getD i 0 →
              (altitudes.getD i 0 - altitudes.getD jb.1 0) / jb.2 ≤
              (altitudes.getD i 0 -
                altitudes.getD ((StreamTree.construct num altitudes g outlets).getD i i) 0) / d) := by
  rw [construct_of_no_lake num altitudes g outlets hnl,
    constructInitialStreamTree_getD num altitudes g _ i hi]
  refine ⟨?_, ?_, ?_⟩
  · intro hio
    rw [if_pos ((createOutletTable_getD num outlets i hi hout).mpr hio)]
  · intro hio hnone
    rw [if_neg (by
      intro hc
      exact hio ((createOutletTable_getD num outlets i hi hout).mp (by simpa using hc)))]
    rcases steepestDescent_spec altitudes g i (hpos i) with ⟨_, h2⟩ | ⟨d, hd, hlt, _⟩
    · exact h2
    · exact absurd hlt (hnone _ hd)
  · intro hio hsome
    rw [if_neg (by
      intro hc
      exact hio ((createOutletTable_getD num outlets i hi hout).mp (by simpa using hc)))]
    rcases steepestDescent_spec altitudes g i (hpos i) with ⟨h1, _⟩ | ⟨d, hd, hlt, hmax⟩
    · obtain ⟨ja, hja, hjalow⟩ := hsome
      exact absurd hjalow (h1 ja hja)
    · exact ⟨d, hd, hlt, hmax⟩

end Fastlem

namespace Fastlem

theorem ex1Nbrs0 : ex1Graph.nbrs 0 = [(1, 1)] := rfl

theorem ex1Nbrs1 : ex1Graph.nbrs 1 = [(0, 1)] := rfl

/-- Witness for C6 on the 2-site monotone slope (no lake): the outlet keeps
`next[0] = 0`, and site 1 selects its unique strictly lower neighbor 0. -/
theorem C6_initial_steepest_descent_witness :
    (StreamTree.construct 2 [0, 5] ex1Graph [0]).getD 0 0 = 0
    ∧ ∃ d, ((StreamTree.construct 2 [0, 5] ex1Graph [0]).getD 1 1, d) ∈ ex1Graph.nbrs 1
        ∧ ([0, 5] : List ℚ).getD ((StreamTree.construct 2 [0, 5] ex1Graph [0]).getD 1 1) 0 <
            ([0, 5] : List ℚ).getD 1 0
        ∧ ∀ jb ∈ ex1Graph.nbrs 1,
            ([0, 5] : List ℚ).getD jb.1 0 < ([0, 5] : List ℚ).getD 1 0 →
            (([0, 5] : List ℚ).getD 1 0 - ([0, 5] : List ℚ).getD jb.1 0) / jb.2 ≤
            (([0, 5] : List ℚ).getD 1 0 -
              ([0, 5] : List ℚ).getD ((StreamTree.construct 2 [0, 5] ex1Graph [0]).getD 1 1) 0) / d := by
  have hpos : ∀ i, ∀ ja ∈ ex1Graph.nbrs i, 0 < ja.2 := by
    intro i ja hja
    by_cases h0 : i = 0
    · subst h0
      rw [ex1Nbrs0] at hja
      simp only [List.mem_singleton] at hja
      rw [hja]
      norm_num
    · by_cases h1 : i = 1
      · subst h1
        rw [ex1Nbrs1] at hja
        simp only [List.mem_singleton] at hja
        rw [hja]
        norm_num
      · exfalso
        have hnil : ex1Graph.nbrs i = [] := by
          simp only [ex1Graph, h0, h1, if_false, ite_false]
        rw [hnil] at hja
        simp at hja
  have hout : ∀ o ∈ ([0] : List ℕ), o < 2 := by
    intro o ho
    simp only [List.mem_singleton] at ho
    omega
  have hnl : (StreamTree.findRootsWithLakes 2 (StreamTree.createOutletTable 2 [0])
      (StreamTree.constructInitialStreamTree 2 [0, 5] ex1Graph
        (StreamTree.createOutletTable 2 [0]))).2 = false := by
    norm_num only [StreamTree.createOutletTable, StreamTree.constructInitialStreamTree,
      StreamTree.steepestDescent, StreamTree.findRootsWithLakes, StreamTree.chainWalk,
      StreamTree.assignPath, ex1Nbrs0, ex1Nbrs1, someNeNoneIff, noneNeSomeIff,
      Bool.false_eq_true, Bool.true_eq_false, eq_self_iff_true, and_true, true_and,
      and_false, false_and, not_true, not_false_iff, if_true, if_false,
      List.foldl_cons, List.foldl_nil, List.map_cons, List.map_nil,
      List.filter_cons, List.filter_nil, List.append_nil, List.nil_append,
      List.cons_append, List.length_cons, List.length_nil, List.getD_nil,
      List.getD_cons_zero, List.set_cons_zero, List.set_nil,
      Option.getD_some, Option.getD_none, Option.isSome_some, Option.isSome_none,
      ne_eq, ite_true, ite_false, decide_True, decide_False,
      Nat.add_eq, Nat.add_zero, Nat.zero_add,
      Option.some.injEq, List.range_zero, List.range_succ, ge_iff_le,
      getElemL1, getDL1, setL1, List.replicate]
  have h0 := C6_initial_steepest_descent 2 [0, 5] ex1Graph [0] hout hpos hnl 0 (by omega)
  have h1 := C6_initial_steepest_descent 2 [0, 5] ex1Graph [0] hout hpos hnl 1 (by omega)
  refine ⟨h0.1 (by simp), h1.2.2 (by simp) ⟨(0, 1), by rw [ex1Nbrs1]; simp, by norm_num⟩⟩

end Fastlem

namespace Fastlem

/-! ## Range and length invariants of flow routing

Auxiliary lemmas: every index stored by the stream-tree construction stays
below `num` (given an in-range graph and in-range outlets), and all the
involved lists keep their length.  These feed the equivariance and invariance
claims. -/

theorem getD_set_self_of_lt (t : List α) (n : ℕ) (a d : α) (h : n < t.length) :
    (t.set n a).getD n d = a := by
  rw [List.getD_eq_getElem _ _ (by simpa using h)]
  exact List.getElem_set_self (by simpa using h)

theorem replicate_false_getD (n i : ℕ) :
    (List.replicate n false).getD i false = false := by
  rcases Nat.lt_or_ge i n with h | h
  · rw [List.getD_eq_getElem _ _ (by simpa using h)]
    exact List.getElem_replicate ..
  · exact List.getD_eq_default _ _ (by simpa using h)

theorem getD_lt_of_forall (t : List ℕ) (num i : ℕ) (h : ∀ x ∈ t, x < num)
    (h0 : 0 < num) : t.getD i 0 < num := by
  rcases Nat.lt_or_ge i t.length with hl | hl
  · rw [List.getD_eq_getElem _ _ hl]
    exact h _ (List.getElem_mem _)
  · rw [List.getD_eq_default _ _ hl]
    exact h0

theorem heapPop_mem : ∀ (l : List (ℕ × ℚ)) (m : ℕ × ℚ) (rest : List (ℕ × ℚ)),
    StreamTree.heapPop l = some (m, rest) → m ∈ l ∧ ∀ x ∈ rest, x ∈ l := by
  intro l
  induction l with
  | nil => intro m rest h; simp [StreamTree.heapPop] at h
  | cons x xs ih =>
    intro m rest h
    simp only [StreamTree.heapPop] at h
    cases hp : StreamTree.heapPop xs with
    | none =>
      simp only [hp] at h
      rw [Option.some.injEq, Prod.mk.injEq] at h
      obtain ⟨rfl, rfl⟩ := h
      exact ⟨List.mem_cons_self _ _, by intro y hy; cases hy⟩
    | some p =>
      obtain ⟨m', rest'⟩ := p
      simp only [hp] at h
      by_cases hle : x.2 ≤ m'.2
      · rw [if_pos hle, Option.some.injEq, Prod.mk.injEq] at h
        obtain ⟨rfl, rfl⟩ := h
        exact ⟨List.mem_cons_self _ _, fun y hy => List.mem_cons_of_mem _ hy⟩
      · rw [if_neg hle, Option.some.injEq, Prod.mk.injEq] at h
        obtain ⟨rfl, rfl⟩ := h
        obtain ⟨hm', hrest'⟩ := ih m' rest' hp
        refine ⟨List.mem_cons_of_mem _ hm', ?_⟩
        intro y hy
        rcases List.mem_cons.mp hy with rfl | hy'
        · exact List.mem_cons_self _ _
        · exact List.mem_cons_of_mem _ (hrest' y hy')

theorem sdFold_snd_mem (A : ℕ → ℚ) (ai : ℚ) :
    ∀ (l : List (ℕ × ℚ)) (acc : ℚ × ℕ),
      (l.foldl (sdStep A ai) acc).2 ∈ acc.2 :: l.map Prod.fst := by
  intro l
  induction l with
  | nil => intro acc; simp
  | cons ja l ih =>
    intro acc
    simp only [List.foldl_cons, List.map_cons]
    have hrec := ih (sdStep A ai acc ja)
    have hstep : (sdStep A ai acc ja).2 = acc.2 ∨ (sdStep A ai acc ja).2 = ja.1 := by
      simp only [sdStep]
      by_cases h1 : ai > A ja.1
      · rw [if_pos h1]
        by_cases h2 : (ai - A ja.1) / ja.2 > acc.1
        · rw [if_pos h2]; right; rfl
        · rw [if_neg h2]; left; rfl
      · rw [if_neg h1]; left; rfl
    rcases List.mem_cons.mp hrec with heq | hmem
    · rcases hstep with h | h
      · rw [heq, h]; exact List.mem_cons_self _ _
      · rw [heq, h]; exact List.mem_cons_of_mem _ (List.mem_cons_self _ _)
    · exact List.mem_cons_of_mem _ (List.mem_cons_of_mem _ hmem)

theorem steepestDescent_lt (num : ℕ) (alt : List ℚ) (g : Graph)
    (hg : g.inRange num) (i : ℕ) (hi : i < num) :
    StreamTree.steepestDescent alt g i < num := by
  rw [steepestDescent_eq_fold]
  have hmem := sdFold_snd_mem (fun j => alt.getD j 0) (alt.getD i 0)
    (g.nbrs i) ((0 : ℚ), i)
  rcases List.mem_cons.mp hmem with h | h
  · rw [h]; exact hi
  · obtain ⟨ja, hja, hfst⟩ := List.mem_map.mp h
    rw [← hfst]
    exact hg i hi ja hja

theorem constructInitialStreamTree_length (num : ℕ) (alt : List ℚ) (g : Graph)
    (iso : List Bool) :
    (StreamTree.constructInitialStreamTree num alt g iso).length = num := by
  simp [StreamTree.constructInitialStreamTree]

theorem constructInitialStreamTree_lt (num : ℕ) (alt : List ℚ) (g : Graph)
    (iso : List Bool) (hg : g.inRange num) :
    ∀ x ∈ StreamTree.constructInitialStreamTree num alt g iso, x < num := by
  intro x hx
  simp only [StreamTree.constructInitialStreamTree, List.mem_map,
    List.mem_range] at hx
  obtain ⟨i, hi, rfl⟩ := hx
  by_cases ho : iso.getD i false = true
  · rw [if_pos ho]; exact hi
  · rw [if_neg ho]; exact steepestDescent_lt num alt g hg i hi

theorem flipFlow_length : ∀ (fuel : ℕ) (next : List ℕ) (k nk : ℕ),
    (StreamTree.flipFlow fuel next k nk).length = next.length := by
  intro fuel
  induction fuel with
  | zero => intro next k nk; simp [StreamTree.flipFlow]
  | succ fuel ih =>
    intro next k nk
    simp only [StreamTree.flipFlow]
    by_cases hc : next.getD k k ≠ k
    · rw [if_pos hc, ih]; simp
    · rw [if_neg hc]; simp

theorem flipFlow_lt (num : ℕ) : ∀ (fuel : ℕ) (next : List ℕ) (k nk : ℕ),
    (∀ x ∈ next, x < num) → nk < num → next.length = num →
    ∀ x ∈ StreamTree.flipFlow fuel next k nk, x < num := by
  intro fuel
  induction fuel with
  | zero =>
    intro next k nk hmem hnk _ x hx
    simp only [StreamTree.flipFlow] at hx
    rcases List.mem_or_eq_of_mem_set hx with h | h
    · exact hmem x h
    · rw [h]; exact hnk
  | succ fuel ih =>
    intro next k nk hmem hnk hlen x hx
    simp only [StreamTree.flipFlow] at hx
    by_cases hc : next.getD k k ≠ k
    · rw [if_pos hc] at hx
      have hk : k < next.length := by
        by_contra hk
        push_neg at hk
        rw [List.getD_eq_default _ _ hk] at hc
        exact hc rfl
      refine ih (next.set k nk) (next.getD k k) k ?_ ?_ ?_ x hx
      · intro y hy
        rcases List.mem_or_eq_of_mem_set hy with h | h
        · exact hmem y h
        · rw [h]; exact hnk
      · exact hlen ▸ hk
      · simp [hlen]
    · rw [if_neg hc] at hx
      rcases List.mem_or_eq_of_mem_set hx with h | h
      · exact hmem x h
      · rw [h]; exact hnk

theorem processNeighbor_heap (alt : List ℚ) (sr : List ℕ) (i : ℕ)
    (st : StreamTree.CarveState) (ja : ℕ × ℚ) :
    (StreamTree.processNeighbor alt sr i st ja).heap = st.heap ∨
    (StreamTree.processNeighbor alt sr i st ja).heap =
      (ja.1, (alt.getD ja.1 0 - alt.getD i 0) * ja.2) :: st.heap := by
  simp only [StreamTree.processNeighbor]
  by_cases hv : st.visited.getD ja.1 false = true
  · rw [if_pos hv]; left; rfl
  · rw [if_neg hv]
    by_cases hr : st.root.getD (sr.getD ja.1 0) none = none
    · rw [if_pos hr]; right; rfl
    · rw [if_neg hr]; right; rfl

theorem processNeighbor_next (alt : List ℚ) (sr : List ℕ) (i : ℕ)
    (st : StreamTree.CarveState) (ja : ℕ × ℚ) :
    (StreamTree.processNeighbor alt sr i st ja).next = st.next ∨
    (StreamTree.processNeighbor alt sr i st ja).next =
      StreamTree.flipFlow (st.next.length + 1) st.next ja.1 i := by
  simp only [StreamTree.processNeighbor]
  by_cases hv : st.visited.getD ja.1 false = true
  · rw [if_pos hv]; left; rfl
  · rw [if_neg hv]
    by_cases hr : st.root.getD (sr.getD ja.1 0) none = none
    · rw [if_pos hr]; right; rfl
    · rw [if_neg hr]; left; rfl

theorem processNeighbor_inv (num : ℕ) (alt : List ℚ) (sr : List ℕ) (i : ℕ)
    (hi : i < num) (st : StreamTree.CarveState) (ja : ℕ × ℚ) (hja : ja.1 < num)
    (hheap : ∀ e ∈ st.heap, e.1 < num) (hmem : ∀ x ∈ st.next, x < num)
    (hlen : st.next.length = num) :
    (∀ e ∈ (StreamTree.processNeighbor alt sr i st ja).heap, e.1 < num) ∧
    (∀ x ∈ (StreamTree.processNeighbor alt sr i st ja).next, x < num) ∧
    (StreamTree.processNeighbor alt sr i st ja).next.length = num := by
  refine ⟨?_, ?_, ?_⟩
  · intro e he
    rcases processNeighbor_heap alt sr i st ja with h | h
    · rw [h] at he; exact hheap e he
    · rw [h] at he
      rcases List.mem_cons.mp he with rfl | h'
      · exact hja
      · exact hheap e h'
  · intro x hx
    rcases processNeighbor_next alt sr i st ja with h | h
    · rw [h] at hx; exact hmem x hx
    · rw [h] at hx
      exact flipFlow_lt num (st.next.length + 1) st.next ja.1 i hmem hi hlen x hx
  · rcases processNeighbor_next alt sr i st ja with h | h
    · rw [h]; exact hlen
    · rw [h, flipFlow_length]; exact hlen

theorem carveFold_inv (num : ℕ) (alt : List ℚ) (sr : List ℕ) (i : ℕ)
    (hi : i < num) :
    ∀ (l : List (ℕ × ℚ)), (∀ ja ∈ l, ja.1 < num) →
    ∀ st : StreamTree.CarveState,
      (∀ e ∈ st.heap, e.1 < num) → (∀ x ∈ st.next, x < num) →
      st.next.length = num →
      (∀ e ∈ (l.foldl (StreamTree.processNeighbor alt sr i) st).heap, e.1 < num) ∧
      (∀ x ∈ (l.foldl (StreamTree.processNeighbor alt sr i) st).next, x < num) ∧
      (l.foldl (StreamTree.processNeighbor alt sr i) st).next.length = num := by
  intro l
  induction l with
  | nil => intro _ st h1 h2 h3; exact ⟨h1, h2, h3⟩
  | cons ja l ih =>
    intro hl st h1 h2 h3
    simp only [List.foldl_cons]
    obtain ⟨g1, g2, g3⟩ := processNeighbor_inv num alt sr i hi st ja
      (hl ja (List.mem_cons_self _ _)) h1 h2 h3
    exact ih (fun x hx => hl x (List.mem_cons_of_mem _ hx)) _ g1 g2 g3

theorem carveLoop_inv (num : ℕ) (alt : List ℚ) (g : Graph) (sr : List ℕ)
    (hg : g.inRange num) :
    ∀ (fuel : ℕ) (st : StreamTree.CarveState),
      (∀ e ∈ st.heap, e.1 < num) → (∀ x ∈ st.next, x < num) →
      st.next.length = num →
      (∀ x ∈ (StreamTree.carveLoop alt g sr fuel st).next, x < num) ∧
      (StreamTree.carveLoop alt g sr fuel st).next.length = num := by
  intro fuel
  induction fuel with
  | zero => intro st _ h2 h3; exact ⟨h2, h3⟩
  | succ fuel ih =>
    intro st h1 h2 h3
    simp only [StreamTree.carveLoop]
    cases hpop : StreamTree.heapPop st.heap with
    | none => exact ⟨h2, h3⟩
    | some p =>
      obtain ⟨e, rest⟩ := p
      simp only [hpop]
      obtain ⟨hmem, hrest⟩ := heapPop_mem st.heap e rest hpop
      have hi : e.1 < num := h1 e hmem
      have hrest' : ∀ x ∈ rest, x.1 < num := fun x hx => h1 x (hrest x hx)
      by_cases hv : st.visited.getD e.1 false = true
      · rw [if_pos hv]
        exact ih _ hrest' h2 h3
      · rw [if_neg hv]
        obtain ⟨g1, g2, g3⟩ := carveFold_inv num alt sr e.1 hi (g.nbrs e.1)
          (hg e.1 hi) ⟨rest, st.next, st.root, st.visited⟩ hrest' h2 h3
        exact ih _ g1 g2 g3

theorem heapSeed_lt (num : ℕ) (alt : List ℚ) :
    ∀ (outlets : List ℕ) (h : List (ℕ × ℚ)), (∀ o ∈ outlets, o < num) →
      (∀ e ∈ h, e.1 < num) →
      ∀ e ∈ outlets.foldl (fun h o => (o, alt.getD o 0) :: h) h, e.1 < num := by
  intro outlets
  induction outlets with
  | nil => intro h _ hh e he; exact hh e he
  | cons o outlets ih =>
    intro h hout hh e he
    simp only [List.foldl_cons] at he
    refine ih _ (fun x hx => hout x (List.mem_cons_of_mem _ hx)) ?_ e he
    intro x hx
    rcases List.mem_cons.mp hx with rfl | hx'
    · exact hout o (List.mem_cons_self _ _)
    · exact hh x hx'

theorem removeLakes_inv (num : ℕ) (alt : List ℚ) (g : Graph)
    (outlets next sr : List ℕ) (hg : g.inRange num)
    (hout : ∀ o ∈ outlets, o < num) (hmem : ∀ x ∈ next, x < num)
    (hlen : next.length = num) :
    (∀ x ∈ StreamTree.removeLakesFromStreamTree next num alt g outlets sr,
      x < num) ∧
    (StreamTree.removeLakesFromStreamTree next num alt g outlets sr).length =
      num := by
  simp only [StreamTree.removeLakesFromStreamTree]
  exact carveLoop_inv num alt g sr hg _ _
    (heapSeed_lt num alt outlets [] hout (by intro e he; cases he)) hmem hlen

theorem construct_inv (num : ℕ) (alt : List ℚ) (g : Graph) (outlets : List ℕ)
    (hg : g.inRange num) (hout : ∀ o ∈ outlets, o < num) :
    (∀ x ∈ StreamTree.construct num alt g outlets, x < num) ∧
    (StreamTree.construct num alt g outlets).length = num := by
  simp only [StreamTree.construct]
  by_cases hl : (StreamTree.findRootsWithLakes num
      (StreamTree.createOutletTable num outlets)
      (StreamTree.constructInitialStreamTree num alt g
        (StreamTree.createOutletTable num outlets))).2 = false
  · rw [if_pos hl]
    exact ⟨constructInitialStreamTree_lt num alt g _ hg,
      constructInitialStreamTree_length num alt g _⟩
  · rw [if_neg hl]
    exact removeLakes_inv num alt g outlets _ _ hg hout
      (constructInitialStreamTree_lt num alt g _ hg)
      (constructInitialStreamTree_length num alt g _)

theorem construct_next_lt (num : ℕ) (alt : List ℚ) (g : Graph)
    (outlets : List ℕ) (hg : g.inRange num) (hout : ∀ o ∈ outlets, o < num)
    (i : ℕ) (hi : i < num) :
    (StreamTree.construct num alt g outlets).getD i i < num := by
  obtain ⟨hmem, hlen⟩ := construct_inv num alt g outlets hg hout
  rw [List.getD_eq_getElem _ _ (by rw [hlen]; exact hi)]
  exact hmem _ (List.getElem_mem _)

theorem basinChildren_lt (num : ℕ) (next : List ℕ) (g : Graph)
    (hg : g.inRange num) (it : ℕ) (hit : it < num) :
    ∀ x ∈ DrainageBasin.basinChildren next g it, x < num := by
  intro x hx
  simp only [DrainageBasin.basinChildren, List.mem_map, List.mem_filter] at hx
  obtain ⟨ja, ⟨hja, _⟩, rfl⟩ := hx
  exact hg it hit ja hja

theorem basinLoop_lt (num : ℕ) (next : List ℕ) (g : Graph)
    (hg : g.inRange num) (h0 : 0 < num) :
    ∀ (fuel i : ℕ) (t : List ℕ), (∀ x ∈ t, x < num) →
      ∀ x ∈ DrainageBasin.basinLoop next g fuel i t, x < num := by
  intro fuel
  induction fuel with
  | zero => intro i t ht x hx; exact ht x hx
  | succ fuel ih =>
    intro i t ht x hx
    simp only [DrainageBasin.basinLoop] at hx
    have ht' : ∀ y ∈ t ++ DrainageBasin.basinChildren next g (t.getD i 0),
        y < num := by
      intro y hy
      rcases List.mem_append.mp hy with hy | hy
      · exact ht y hy
      · exact basinChildren_lt num next g hg (t.getD i 0)
          (getD_lt_of_forall t num i ht h0) y hy
    by_cases hc : i + 1 ≥
        (t ++ DrainageBasin.basinChildren next g (t.getD i 0)).length
    · rw [if_pos hc] at hx; exact ht' x hx
    · rw [if_neg hc] at hx; exact ih (i + 1) _ ht' x hx

theorem basin_lt (num : ℕ) (next : List ℕ) (g : Graph) (hg : g.inRange num)
    (o : ℕ) (ho : o < num) :
    ∀ x ∈ DrainageBasin.construct o next g, x < num := by
  intro x hx
  simp only [DrainageBasin.construct] at hx
  refine basinLoop_lt num next g hg (lt_of_le_of_lt (Nat.zero_le o) ho)
    next.length 0 [o] ?_ x hx
  intro y hy
  rcases List.mem_singleton.mp hy with rfl
  exact ho

end Fastlem

namespace Fastlem

/-! ## Shift equivariance of the solver (Claim C8, amended form)

With a single outlet, adding a constant `c` to every elevation commutes with
every stage of the pipeline: slopes and ridge priorities are differences, the
single outlet's seed is popped first regardless of its absolute priority, and
the per-iteration update adds the basin's base elevation back in. -/

theorem shiftedOn_set (num : ℕ) (l₁ l₂ : List ℚ) (c v : ℚ) (i : ℕ)
    (hsh : shiftedOn num l₁ l₂ c) (hlen : l₂.length = l₁.length) :
    shiftedOn num (l₁.set i v) (l₂.set i (v + c)) c := by
  intro x hx
  by_cases hxi : x = i
  · subst hxi
    rcases Nat.lt_or_ge x l₁.length with hl | hl
    · rw [getD_set_self_of_lt _ _ _ _ hl,
        getD_set_self_of_lt _ _ _ _ (by omega : x < l₂.length)]
    · rw [List.set_eq_of_length_le hl, List.set_eq_of_length_le
        (by omega : l₂.length ≤ x)]
      exact hsh x hx
  · rw [getD_set_other _ _ _ _ _ (fun h => hxi h.symm),
      getD_set_other _ _ _ _ _ (fun h => hxi h.symm)]
    exact hsh x hx

theorem sdStep_shift (num : ℕ) (alt₁ alt₂ : List ℚ) (c : ℚ)
    (hsh : shiftedOn num alt₁ alt₂ c) (i : ℕ) (hi : i < num)
    (acc : ℚ × ℕ) (ja : ℕ × ℚ) (hja : ja.1 < num) :
    sdStep (fun j => alt₂.getD j 0) (alt₂.getD i 0) acc ja =
      sdStep (fun j => alt₁.getD j 0) (alt₁.getD i 0) acc ja := by
  simp only [sdStep]
  rw [hsh ja.1 hja, hsh i hi]
  simp only [gt_iff_lt, add_lt_add_iff_right, add_sub_add_right_eq_sub]

theorem steepestDescent_shift (num : ℕ) (g : Graph) (alt₁ alt₂ : List ℚ)
    (c : ℚ) (hsh : shiftedOn num alt₁ alt₂ c) (i : ℕ) (hi : i < num)
    (hnb : ∀ ja ∈ g.nbrs i, ja.1 < num) :
    StreamTree.steepestDescent alt₂ g i = StreamTree.steepestDescent alt₁ g i := by
  rw [steepestDescent_eq_fold, steepestDescent_eq_fold]
  congr 1
  exact List.foldl_ext _ _ _
    (fun acc ja hja => sdStep_shift num alt₁ alt₂ c hsh i hi acc ja (hnb ja hja))

theorem constructInitialStreamTree_shift (num : ℕ) (g : Graph)
    (isOutlet : List Bool) (alt₁ alt₂ : List ℚ) (c : ℚ)
    (hg : g.inRange num) (hsh : shiftedOn num alt₁ alt₂ c) :
    StreamTree.constructInitialStreamTree num alt₂ g isOutlet =
      StreamTree.constructInitialStreamTree num alt₁ g isOutlet := by
  simp only [StreamTree.constructInitialStreamTree]
  refine List.map_congr_left (fun i hi => ?_)
  have hi' : i < num := List.mem_range.mp hi
  by_cases ho : isOutlet.getD i false = true
  · rw [if_pos ho, if_pos ho]
  · rw [if_neg ho, if_neg ho]
    exact steepestDescent_shift num g alt₁ alt₂ c hsh i hi' (hg i hi')

theorem processNeighbor_shift (num : ℕ) (alt₁ alt₂ : List ℚ) (c : ℚ)
    (hsh : shiftedOn num alt₁ alt₂ c) (sr : List ℕ) (i : ℕ) (hi : i < num)
    (st : StreamTree.CarveState) (ja : ℕ × ℚ) (hja : ja.1 < num) :
    StreamTree.processNeighbor alt₂ sr i st ja =
      StreamTree.processNeighbor alt₁ sr i st ja := by
  have hdiff : alt₂.getD ja.1 0 - alt₂.getD i 0 =
      alt₁.getD ja.1 0 - alt₁.getD i 0 := by
    rw [hsh ja.1 hja, hsh i hi]; ring
  simp only [StreamTree.processNeighbor, hdiff]

theorem carveFold_shift (num : ℕ) (alt₁ alt₂ : List ℚ) (c : ℚ)
    (hsh : shiftedOn num alt₁ alt₂ c) (sr : List ℕ) (i : ℕ) (hi : i < num)
    (l : List (ℕ × ℚ)) (hl : ∀ ja ∈ l, ja.1 < num) (st : StreamTree.CarveState) :
    l.foldl (StreamTree.processNeighbor alt₂ sr i) st =
      l.foldl (StreamTree.processNeighbor alt₁ sr i) st :=
  List.foldl_ext _ _ st (fun st' ja hja =>
    processNeighbor_shift num alt₁ alt₂ c hsh sr i hi st' ja (hl ja hja))

theorem carveFold_heap_lt (num : ℕ) (alt : List ℚ) (sr : List ℕ) (i : ℕ) :
    ∀ (l : List (ℕ × ℚ)), (∀ ja ∈ l, ja.1 < num) →
    ∀ st : StreamTree.CarveState, (∀ e ∈ st.heap, e.1 < num) →
    ∀ e ∈ (l.foldl (StreamTree.processNeighbor alt sr i) st).heap, e.1 < num := by
  intro l
  induction l with
  | nil => intro _ st h e he; exact h e he
  | cons ja l ih =>
    intro hl st h
    simp only [List.foldl_cons]
    refine ih (fun x hx => hl x (List.mem_cons_of_mem _ hx)) _ ?_
    intro e he
    rcases processNeighbor_heap alt sr i st ja with hh | hh
    · rw [hh] at he; exact h e he
    · rw [hh] at he
      rcases List.mem_cons.mp he with rfl | he'
      · exact hl ja (List.mem_cons_self _ _)
      · exact h e he'

theorem carveLoop_shift (num : ℕ) (g : Graph) (hg : g.inRange num)
    (alt₁ alt₂ : List ℚ) (c : ℚ) (hsh : shiftedOn num alt₁ alt₂ c)
    (sr : List ℕ) :
    ∀ (fuel : ℕ) (st : StreamTree.CarveState), (∀ e ∈ st.heap, e.1 < num) →
      StreamTree.carveLoop alt₂ g sr fuel st =
        StreamTree.carveLoop alt₁ g sr fuel st := by
  intro fuel
  induction fuel with
  | zero => intro st _; rfl
  | succ fuel ih =>
    intro st hheap
    simp only [StreamTree.carveLoop]
    cases hpop : StreamTree.heapPop st.heap with
    | none => rfl
    | some p =>
      obtain ⟨e, rest⟩ := p
      simp only [hpop]
      obtain ⟨hmem, hrest⟩ := heapPop_mem st.heap e rest hpop
      have hi : e.1 < num := hheap e hmem
      have hrest' : ∀ x ∈ rest, x.1 < num := fun x hx => hheap x (hrest x hx)
      by_cases hv : st.visited.getD e.1 false = true
      · rw [if_pos hv, if_pos hv]
        exact ih _ hrest'
      · rw [if_neg hv, if_neg hv]
        rw [carveFold_shift num alt₁ alt₂ c hsh sr e.1 hi (g.nbrs e.1)
          (hg e.1 hi) ⟨rest, st.next, st.root, st.visited⟩]
        apply ih
        intro x hx
        exact carveFold_heap_lt num alt₁ sr e.1 (g.nbrs e.1) (hg e.1 hi)
          ⟨rest, st.next, st.root, st.visited⟩ hrest' x hx

end Fastlem

namespace Fastlem

theorem carveLoop_seed (alt : List ℚ) (g : Graph) (sr : List ℕ) (fuel : ℕ)
    (next : List ℕ) (root0 : List (Option ℕ)) (vis : List Bool) (o : ℕ) (a : ℚ)
    (hv : vis.getD o false = false) :
    StreamTree.carveLoop alt g sr (fuel + 1) ⟨[(o, a)], next, root0, vis⟩ =
      StreamTree.carveLoop alt g sr fuel
        ⟨((g.nbrs o).foldl (StreamTree.processNeighbor alt sr o)
            ⟨[], next, root0, vis⟩).heap,
         ((g.nbrs o).foldl (StreamTree.processNeighbor alt sr o)
            ⟨[], next, root0, vis⟩).next,
         (((g.nbrs o).foldl (StreamTree.processNeighbor alt sr o)
            ⟨[], next, root0, vis⟩).root).set o
           ((((g.nbrs o).foldl (StreamTree.processNeighbor alt sr o)
              ⟨[], next, root0, vis⟩).root).getD (sr.getD o 0) none),
         (((g.nbrs o).foldl (StreamTree.processNeighbor alt sr o)
            ⟨[], next, root0, vis⟩).visited).set o true⟩ := by
  have hpop : StreamTree.heapPop [(o, a)] = some ((o, a), []) := rfl
  simp only [StreamTree.carveLoop, hpop]
  rw [if_neg (show ¬ (vis.getD o false = true) by rw [hv]; simp)]

theorem removeLakes_shift (num : ℕ) (g : Graph) (hg : g.inRange num)
    (alt₁ alt₂ : List ℚ) (c : ℚ) (hsh : shiftedOn num alt₁ alt₂ c)
    (next sr : List ℕ) (o : ℕ) (ho : o < num) :
    StreamTree.removeLakesFromStreamTree next num alt₂ g [o] sr =
      StreamTree.removeLakesFromStreamTree next num alt₁ g [o] sr := by
  simp only [StreamTree.removeLakesFromStreamTree, List.foldl_cons,
    List.foldl_nil]
  have hfuel : StreamTree.carveFuel num g [o] =
      ((((List.range num).map (fun i => (g.nbrs i).length)).sum) + 1) + 1 := by
    simp only [StreamTree.carveFuel, List.length_cons, List.length_nil]
    omega
  rw [hfuel]
  rw [carveLoop_seed alt₂ g sr _ next _ _ o _ (replicate_false_getD num o),
    carveLoop_seed alt₁ g sr _ next _ _ o _ (replicate_false_getD num o)]
  rw [carveFold_shift num alt₁ alt₂ c hsh sr o ho (g.nbrs o) (hg o ho)
    ⟨[], next, (List.replicate num none).set o (some o), List.replicate num false⟩]
  rw [carveLoop_shift num g hg alt₁ alt₂ c hsh sr _ _ ?_]
  intro e he
  exact carveFold_heap_lt num alt₁ sr o (g.nbrs o) (hg o ho)
    ⟨[], next, (List.replicate num none).set o (some o), List.replicate num false⟩
    (by intro x hx; cases hx) e he

theorem construct_shift_single (num : ℕ) (g : Graph) (hg : g.inRange num)
    (alt₁ alt₂ : List ℚ) (c : ℚ) (hsh : shiftedOn num alt₁ alt₂ c)
    (o : ℕ) (ho : o < num) :
    StreamTree.construct num alt₂ g [o] = StreamTree.construct num alt₁ g [o] := by
  have hinit := constructInitialStreamTree_shift num g
    (StreamTree.createOutletTable num [o]) alt₁ alt₂ c hg hsh
  simp only [StreamTree.construct, hinit]
  by_cases hl : (StreamTree.findRootsWithLakes num
      (StreamTree.createOutletTable num [o])
      (StreamTree.constructInitialStreamTree num alt₁ g
        (StreamTree.createOutletTable num [o]))).2 = false
  · rw [if_pos hl, if_pos hl]
  · rw [if_neg hl, if_neg hl]
    exact removeLakes_shift num g hg alt₁ alt₂ c hsh _ _ o ho

end Fastlem

namespace Fastlem

theorem shiftParams_length (c : ℚ) (params : List TopographicalParameters) :
    (shiftParams c params).length = params.length := by
  simp [shiftParams]

theorem shiftParams_getD_erodibility (c : ℚ)
    (params : List TopographicalParameters) (i : ℕ) :
    ((shiftParams c params).getD i TopographicalParameters.default).erodibility =
      (params.getD i TopographicalParameters.default).erodibility := by
  rcases Nat.lt_or_ge i params.length with h | h
  · rw [List.getD_eq_getElem _ _ (by simpa [shiftParams] using h),
      List.getD_eq_getElem _ _ h]
    simp [shiftParams]
  · rw [List.getD_eq_default _ _ (by simpa [shiftParams] using h),
      List.getD_eq_default _ _ h]

theorem shiftParams_getD_uplift (c : ℚ)
    (params : List TopographicalParameters) (i : ℕ) :
    ((shiftParams c params).getD i TopographicalParameters.default).uplift_rate =
      (params.getD i TopographicalParameters.default).uplift_rate := by
  rcases Nat.lt_or_ge i params.length with h | h
  · rw [List.getD_eq_getElem _ _ (by simpa [shiftParams] using h),
      List.getD_eq_getElem _ _ h]
    simp [shiftParams]
  · rw [List.getD_eq_default _ _ (by simpa [shiftParams] using h),
      List.getD_eq_default _ _ h]

theorem shiftParams_getD_maxSlope (c : ℚ)
    (params : List TopographicalParameters) (i : ℕ) :
    ((shiftParams c params).getD i TopographicalParameters.default).max_slope =
      (params.getD i TopographicalParameters.default).max_slope := by
  rcases Nat.lt_or_ge i params.length with h | h
  · rw [List.getD_eq_getElem _ _ (by simpa [shiftParams] using h),
      List.getD_eq_getElem _ _ h]
    simp [shiftParams]
  · rw [List.getD_eq_default _ _ (by simpa [shiftParams] using h),
      List.getD_eq_default _ _ h]

theorem effectiveOutlets_shiftParams (c : ℚ)
    (params : List TopographicalParameters) (d : List ℕ) :
    effectiveOutlets (shiftParams c params) d = effectiveOutlets params d := by
  have h : (((shiftParams c params).enum.filter
        (fun p => p.2.is_outlet)).map (·.1)) =
      ((params.enum.filter (fun p => p.2.is_outlet)).map (·.1)) := by
    rw [shiftParams, List.enum_map, List.filter_map, List.map_map]
    have hp : ((fun (p : ℕ × TopographicalParameters) => p.2.is_outlet) ∘
        Prod.map id (fun p => { p with base_elevation := p.base_elevation + c })) =
        (fun (p : ℕ × TopographicalParameters) => p.2.is_outlet) := by
      funext q; rfl
    have hf : ((fun (p : ℕ × TopographicalParameters) => p.1) ∘
        Prod.map id (fun p => { p with base_elevation := p.base_elevation + c })) =
        (fun (p : ℕ × TopographicalParameters) => p.1) := by
      funext q; rfl
    rw [hp, hf]
  simp only [effectiveOutlets, h]

theorem initialElevations_length (params : List TopographicalParameters) :
    (initialElevations params).length = params.length := by
  simp [initialElevations, List.enum_length]

theorem initialElevations_shiftParams (c : ℚ)
    (params : List TopographicalParameters) :
    shiftedOn params.length (initialElevations params)
      (initialElevations (shiftParams c params)) c := by
  intro x hx
  have hx₁ : x < (initialElevations params).length := by
    rw [initialElevations_length]; exact hx
  have hx₂ : x < (initialElevations (shiftParams c params)).length := by
    rw [initialElevations_length, shiftParams_length]; exact hx
  rw [List.getD_eq_getElem _ _ hx₂, List.getD_eq_getElem _ _ hx₁]
  simp only [initialElevations, shiftParams, List.getElem_map,
    List.getElem_enum]
  ring

end Fastlem

namespace Fastlem

/-- `processOutlet` written with the named step functions (a definitional
repackaging used by the equivariance proofs). -/
theorem processOutlet_eq (g : Graph) (params : List TopographicalParameters)
    (next : List ℕ) (st : IterState) (outlet : ℕ) :
    processOutlet g params next st outlet =
      ⟨(DrainageBasin.construct outlet next g).reverse.foldl
          (drainageAreaStep next) st.drainageAreas,
        (DrainageBasin.construct outlet next g).foldl
          (responseTimeStep g params next
            ((DrainageBasin.construct outlet next g).reverse.foldl
              (drainageAreaStep next) st.drainageAreas))
          st.responseTimes,
        ((DrainageBasin.construct outlet next g).foldl
          (elevUpdateStep g params next
            ((DrainageBasin.construct outlet next g).foldl
              (responseTimeStep g params next
                ((DrainageBasin.construct outlet next g).reverse.foldl
                  (drainageAreaStep next) st.drainageAreas))
              st.responseTimes)
            outlet)
          (st.elevations, st.changed)).1,
        ((DrainageBasin.construct outlet next g).foldl
          (elevUpdateStep g params next
            ((DrainageBasin.construct outlet next g).foldl
              (responseTimeStep g params next
                ((DrainageBasin.construct outlet next g).reverse.foldl
                  (drainageAreaStep next) st.drainageAreas))
              st.responseTimes)
            outlet)
          (st.elevations, st.changed)).2⟩ := rfl

theorem responseTimeStep_shiftParams (g : Graph)
    (params : List TopographicalParameters) (c : ℚ) (next : List ℕ)
    (da rt : List ℚ) (i : ℕ) :
    responseTimeStep g (shiftParams c params) next da rt i =
      responseTimeStep g params next da rt i := by
  simp only [responseTimeStep, shiftParams_getD_erodibility]

theorem rtFold_shiftParams (g : Graph) (params : List TopographicalParameters)
    (c : ℚ) (next : List ℕ) (da : List ℚ) (l : List ℕ) (rt : List ℚ) :
    l.foldl (responseTimeStep g (shiftParams c params) next da) rt =
      l.foldl (responseTimeStep g params next da) rt :=
  List.foldl_ext _ _ rt
    (fun rt' i _ => responseTimeStep_shiftParams g params c next da rt' i)

theorem newElevationAt_shift (num : ℕ) (g : Graph)
    (params : List TopographicalParameters) (c : ℚ) (next : List ℕ)
    (rt : List ℚ) (outlet i : ℕ)
    (hnr : ∀ j, j < num → next.getD j j < num) (ho : outlet < num)
    (hi : i < num) (e₁ e₂ : List ℚ) (hsh : shiftedOn num e₁ e₂ c) :
    newElevationAt g (shiftParams c params) next rt outlet e₂ i =
      newElevationAt g params next rt outlet e₁ i + c := by
  have hswap : ∀ X U : ℚ, X + c + U = X + U + c := fun X U => by ring
  simp only [newElevationAt, shiftParams_getD_uplift, shiftParams_getD_maxSlope,
    hsh outlet ho, hsh (next.getD i i) (hnr i hi), hswap,
    add_sub_add_right_eq_sub]
  cases hms : (params.getD i TopographicalParameters.default).max_slope with
  | none => rfl
  | some ms =>
    dsimp only
    by_cases hc : (e₁.getD outlet 0 +
        (params.getD i TopographicalParameters.default).uplift_rate *
          max (rt.getD i 0 - rt.getD outlet 0) 0 - e₁.getD (next.getD i i) 0) /
        edgeDistance g i (next.getD i i) > f64Tan ms
    · rw [if_pos hc, if_pos hc]
    · rw [if_neg hc, if_neg hc]

theorem elevUpdateStep_shift (num : ℕ) (g : Graph)
    (params : List TopographicalParameters) (c : ℚ) (next : List ℕ)
    (rt : List ℚ) (outlet i : ℕ)
    (hnr : ∀ j, j < num → next.getD j j < num) (ho : outlet < num)
    (hi : i < num) (e₁ e₂ : List ℚ) (b : Bool)
    (hsh : shiftedOn num e₁ e₂ c) :
    elevUpdateStep g (shiftParams c params) next rt outlet (e₂, b) i =
      (e₂.set i (newElevationAt g params next rt outlet e₁ i + c),
        (elevUpdateStep g params next rt outlet (e₁, b) i).2) := by
  have hne := newElevationAt_shift num g params c next rt outlet i hnr ho hi
    e₁ e₂ hsh
  refine Prod.ext ?_ ?_
  · simp only [elevUpdateStep, hne]
  · simp only [elevUpdateStep, hne, hsh i hi, add_left_inj]

theorem ecFold_shift (num : ℕ) (g : Graph)
    (params : List TopographicalParameters) (c : ℚ) (next : List ℕ)
    (rt : List ℚ) (outlet : ℕ)
    (hnr : ∀ j, j < num → next.getD j j < num) (ho : outlet < num) :
    ∀ (l : List ℕ), (∀ i ∈ l, i < num) →
    ∀ (e₁ e₂ : List ℚ) (b : Bool), shiftedOn num e₁ e₂ c →
      e₂.length = e₁.length →
      shiftedOn num
        (l.foldl (elevUpdateStep g params next rt outlet) (e₁, b)).1
        (l.foldl (elevUpdateStep g (shiftParams c params) next rt outlet)
          (e₂, b)).1 c ∧
      (l.foldl (elevUpdateStep g (shiftParams c params) next rt outlet)
          (e₂, b)).1.length =
        (l.foldl (elevUpdateStep g params next rt outlet) (e₁, b)).1.length ∧
      (l.foldl (elevUpdateStep g (shiftParams c params) next rt outlet)
          (e₂, b)).2 =
        (l.foldl (elevUpdateStep g params next rt outlet) (e₁, b)).2 := by
  intro l
  induction l with
  | nil => intro _ e₁ e₂ b hsh hlen; exact ⟨hsh, hlen, rfl⟩
  | cons i l ih =>
    intro hl e₁ e₂ b hsh hlen
    simp only [List.foldl_cons]
    have hi : i < num := hl i (List.mem_cons_self _ _)
    rw [elevUpdateStep_shift num g params c next rt outlet i hnr ho hi
      e₁ e₂ b hsh]
    rw [show elevUpdateStep g params next rt outlet (e₁, b) i =
      (e₁.set i (newElevationAt g params next rt outlet e₁ i),
        (elevUpdateStep g params next rt outlet (e₁, b) i).2) from
      Prod.ext rfl rfl]
    exact ih (fun x hx => hl x (List.mem_cons_of_mem _ hx)) _ _ _
      (shiftedOn_set num e₁ e₂ c (newElevationAt g params next rt outlet e₁ i)
        i hsh hlen)
      (by simp [hlen])

theorem processOutlet_shift (num : ℕ) (g : Graph) (hg : g.inRange num)
    (params : List TopographicalParameters) (c : ℚ) (next : List ℕ)
    (hnr : ∀ j, j < num → next.getD j j < num)
    (outlet : ℕ) (ho : outlet < num) (da rt e₁ e₂ : List ℚ) (b : Bool)
    (hsh : shiftedOn num e₁ e₂ c) (hlen : e₂.length = e₁.length) :
    (processOutlet g (shiftParams c params) next ⟨da, rt, e₂, b⟩ outlet).drainageAreas =
      (processOutlet g params next ⟨da, rt, e₁, b⟩ outlet).drainageAreas ∧
    (processOutlet g (shiftParams c params) next ⟨da, rt, e₂, b⟩ outlet).responseTimes =
      (processOutlet g params next ⟨da, rt, e₁, b⟩ outlet).responseTimes ∧
    shiftedOn num (processOutlet g params next ⟨da, rt, e₁, b⟩ outlet).elevations
      (processOutlet g (shiftParams c params) next ⟨da, rt, e₂, b⟩ outlet).elevations c ∧
    (processOutlet g (shiftParams c params) next ⟨da, rt, e₂, b⟩ outlet).elevations.length =
      (processOutlet g params next ⟨da, rt, e₁, b⟩ outlet).elevations.length ∧
    (processOutlet g (shiftParams c params) next ⟨da, rt, e₂, b⟩ outlet).changed =
      (processOutlet g params next ⟨da, rt, e₁, b⟩ outlet).changed := by
  have hbl : ∀ i ∈ DrainageBasin.construct outlet next g, i < num :=
    basin_lt num next g hg outlet ho
  rw [processOutlet_eq, processOutlet_eq]
  rw [rtFold_shiftParams g params c next]
  obtain ⟨h1, h2, h3⟩ := ecFold_shift num g params c next
    ((DrainageBasin.construct outlet next g).foldl
      (responseTimeStep g params next
        ((DrainageBasin.construct outlet next g).reverse.foldl
          (drainageAreaStep next) da))
      rt)
    outlet hnr ho (DrainageBasin.construct outlet next g) hbl e₁ e₂ b hsh hlen
  exact ⟨rfl, rfl, h1, h2, h3⟩

end Fastlem

namespace Fastlem

theorem solveIteration_shift (num : ℕ) (g : Graph) (hg : g.inRange num)
    (params : List TopographicalParameters) (c : ℚ) (areas : List ℚ)
    (o : ℕ) (ho : o < num) (e₁ e₂ : List ℚ)
    (hsh : shiftedOn num e₁ e₂ c) (hlen : e₂.length = e₁.length) :
    shiftedOn num (solveIteration num g params areas [o] e₁).elevations
      (solveIteration num g (shiftParams c params) areas [o] e₂).elevations c ∧
    (solveIteration num g (shiftParams c params) areas [o] e₂).elevations.length =
      (solveIteration num g params areas [o] e₁).elevations.length ∧
    (solveIteration num g (shiftParams c params) areas [o] e₂).changed =
      (solveIteration num g params areas [o] e₁).changed := by
  have hout : ∀ x ∈ ([o] : List ℕ), x < num := by
    intro x hx
    rcases List.mem_singleton.mp hx with rfl
    exact ho
  have hnext : StreamTree.construct num e₂ g [o] =
      StreamTree.construct num e₁ g [o] :=
    construct_shift_single num g hg e₁ e₂ c hsh o ho
  simp only [solveIteration, hnext, List.foldl_cons, List.foldl_nil]
  have hnr : ∀ j, j < num → (StreamTree.construct num e₁ g [o]).getD j j < num :=
    fun j hj => construct_next_lt num e₁ g [o] hg hout j hj
  obtain ⟨h1, h2, h3, h4, h5⟩ := processOutlet_shift num g hg params c
    (StreamTree.construct num e₁ g [o]) hnr o ho areas
    (List.replicate num 0) e₁ e₂ false hsh hlen
  exact ⟨h3, h4, h5⟩

theorem solveLoop_shift (num : ℕ) (g : Graph) (hg : g.inRange num)
    (params : List TopographicalParameters) (c : ℚ) (areas : List ℚ)
    (o : ℕ) (ho : o < num) (mi : Option ℕ) :
    ∀ (fuel step count : ℕ) (e₁ e₂ : List ℚ),
      shiftedOn num e₁ e₂ c → e₂.length = e₁.length →
      (solveLoop num g (shiftParams c params) areas [o] mi fuel step count
          e₂).iterations =
        (solveLoop num g params areas [o] mi fuel step count e₁).iterations ∧
      (solveLoop num g (shiftParams c params) areas [o] mi fuel step count
          e₂).converged =
        (solveLoop num g params areas [o] mi fuel step count e₁).converged ∧
      shiftedOn num
        (solveLoop num g params areas [o] mi fuel step count e₁).elevations
        (solveLoop num g (shiftParams c params) areas [o] mi fuel step count
          e₂).elevations c := by
  intro fuel
  induction fuel with
  | zero => intro step count e₁ e₂ hsh _; exact ⟨rfl, rfl, hsh⟩
  | succ fuel ih =>
    intro step count e₁ e₂ hsh hlen
    obtain ⟨hshn, hlenn, hch⟩ := solveIteration_shift num g hg params c areas
      o ho e₁ e₂ hsh hlen
    simp only [solveLoop]
    rw [hch]
    by_cases hc : (solveIteration num g params areas [o] e₁).changed = false
    · rw [if_pos hc, if_pos hc]
      exact ⟨rfl, rfl, hshn⟩
    · rw [if_neg hc, if_neg hc]
      cases mi with
      | none => exact ih (step + 1) (count + 1) _ _ hshn hlenn
      | some m =>
        dsimp only
        by_cases hm : step + 1 ≥ m
        · rw [if_pos hm, if_pos hm]
          exact ⟨rfl, rfl, hshn⟩
        · rw [if_neg hm, if_neg hm]
          exact ih (step + 1) (count + 1) _ _ hshn hlenn

set_option maxHeartbeats 1000000 in
/-- C8 (amended): the claimed shift equivariance fails with several outlets
(see `C8_counterexample`: the ridge-carving pops depend on the outlets'
absolute seed priorities), but holds whenever the effective outlet set is a
single site.  For a well-formed model (in-range graph, matching parameter
count) with exactly one effective outlet `o`, adding `c` to every site's
`base_elevation` leaves the iteration structure unchanged and shifts every
output elevation of `generate` by exactly `c` on all `num` sites. -/
theorem C8_amended_single_outlet_shift (model : ModelData)
    (params : List TopographicalParameters) (mi : Option ℕ) (c : ℚ)
    (fuel : ℕ) (o : ℕ) (hg : model.graph.inRange model.num)
    (hlen : params.length = model.num)
    (hout : effectiveOutlets params model.default_outlets = [o])
    (ho : o < model.num) (r₁ r₂ : List ℚ)
    (h₁ : generate stdRngStream fuel ⟨some model, some params, mi⟩ =
      Except.ok r₁)
    (h₂ : generate stdRngStream fuel
      ⟨some model, some (shiftParams c params), mi⟩ = Except.ok r₂) :
    shiftedOn model.num r₁ r₂ c := by
  simp only [generate, hlen, shiftParams_length, ne_eq, not_true_eq_false,
    if_false, ite_false, hout, effectiveOutlets_shiftParams,
    Except.ok.injEq] at h₁ h₂
  obtain ⟨hi1, hc1, hsh⟩ := solveLoop_shift model.num model.graph hg params c
    model.areas o ho mi fuel 0 0 (initialElevations params)
    (initialElevations (shiftParams c params))
    (hlen ▸ initialElevations_shiftParams c params)
    (by rw [initialElevations_length, initialElevations_length,
      shiftParams_length])
  rw [← h₁, ← h₂]
  exact hsh

end Fastlem

namespace Fastlem

/-! ## Evaluation of the two concrete single-outlet runs (C8 amended witness)

The 2-site configuration `ex1Model`/`ex1Params 0` (single outlet 0 at base 0,
site 1 at base 5) and its copy with every base elevation shifted by 7. -/

theorem ex1ParamsLen : (ex1Params 0).length = 2 := by
  norm_num only [ex1Params, List.length_cons, List.length_nil]

theorem ex1Outlets : effectiveOutlets (ex1Params 0) [] = [0] := by
  norm_num only [effectiveOutlets, ex1Params, List.enum, List.enumFrom, List.isEmpty_cons,
    someNeNoneIff, noneNeSomeIff,
    Bool.false_eq_true, Bool.true_eq_false, eq_self_iff_true, and_true, true_and,
    and_false, false_and, not_true, not_false_iff, if_true, if_false,
    List.foldl_cons, List.foldl_nil, List.map_cons, List.map_nil,
    List.filter_cons, List.filter_nil, List.append_nil, List.nil_append,
    List.cons_append, List.length_cons, List.length_nil, List.getD_nil,
    List.getD_cons_zero, List.set_cons_zero, List.set_nil, List.find?_cons,
    List.find?_nil, List.sum_cons, List.sum_nil, List.reverse_cons,
    List.reverse_nil, Option.getD_some, Option.getD_none, Option.isSome_some, Option.isSome_none,
    beq_iff_eq, beq_self_eq_true, ne_eq, ite_true, ite_false, decide_True, decide_False,
    Nat.add_eq, Nat.add_zero, Nat.zero_add,
    Option.some.injEq, List.range_zero, List.range_succ, ge_iff_le, max_def,
    getElemL1, getElemL2, getElemL3, getDL1, getDL2, getDL3, setL1, setL2, setL3, List.replicate]

theorem ex1InitBase : initialElevations (ex1Params 0) = [0, 5] := by
  norm_num only [initialElevations, stdRngStream, EPSILON, ex1Params, List.enum, List.enumFrom,
    someNeNoneIff, noneNeSomeIff,
    Bool.false_eq_true, Bool.true_eq_false, eq_self_iff_true, and_true, true_and,
    and_false, false_and, not_true, not_false_iff, if_true, if_false,
    List.foldl_cons, List.foldl_nil, List.map_cons, List.map_nil,
    List.filter_cons, List.filter_nil, List.append_nil, List.nil_append,
    List.cons_append, List.length_cons, List.length_nil, List.getD_nil,
    List.getD_cons_zero, List.set_cons_zero, List.set_nil, List.find?_cons,
    List.find?_nil, List.sum_cons, List.sum_nil, List.reverse_cons,
    List.reverse_nil, Option.getD_some, Option.getD_none, Option.isSome_some, Option.isSome_none,
    beq_iff_eq, beq_self_eq_true, ne_eq, ite_true, ite_false, decide_True, decide_False,
    Nat.add_eq, Nat.add_zero, Nat.zero_add,
    Option.some.injEq, List.range_zero, List.range_succ, ge_iff_le, max_def,
    getElemL1, getElemL2, getElemL3, getDL1, getDL2, getDL3, setL1, setL2, setL3, List.replicate]

theorem ex1SP : shiftParams 7 (ex1Params 0) =
    [⟨7, 1, 1, true, none⟩, ⟨12, 1, 1, false, none⟩] := by
  norm_num only [shiftParams, ex1Params, List.cons.injEq, TopographicalParameters.mk.injEq,
    someNeNoneIff, noneNeSomeIff,
    Bool.false_eq_true, Bool.true_eq_false, eq_self_iff_true, and_true, true_and,
    and_false, false_and, not_true, not_false_iff, if_true, if_false,
    List.foldl_cons, List.foldl_nil, List.map_cons, List.map_nil,
    List.filter_cons, List.filter_nil, List.append_nil, List.nil_append,
    List.cons_append, List.length_cons, List.length_nil, List.getD_nil,
    List.getD_cons_zero, List.set_cons_zero, List.set_nil, List.find?_cons,
    List.find?_nil, List.sum_cons, List.sum_nil, List.reverse_cons,
    List.reverse_nil, Option.getD_some, Option.getD_none, Option.isSome_some, Option.isSome_none,
    beq_iff_eq, beq_self_eq_true, ne_eq, ite_true, ite_false, decide_True, decide_False,
    Nat.add_eq, Nat.add_zero, Nat.zero_add,
    Option.some.injEq, List.range_zero, List.range_succ, ge_iff_le, max_def,
    getElemL1, getElemL2, getElemL3, getDL1, getDL2, getDL3, setL1, setL2, setL3, List.replicate]

theorem ex1SPLen : (shiftParams 7 (ex1Params 0)).length = 2 := by
  rw [shiftParams_length]; exact ex1ParamsLen

theorem ex1OutletsShift : effectiveOutlets (shiftParams 7 (ex1Params 0)) [] = [0] := by
  rw [effectiveOutlets_shiftParams]; exact ex1Outlets

theorem ex1InitShift : initialElevations (shiftParams 7 (ex1Params 0)) = [7, 12] := by
  rw [ex1SP]
  norm_num only [initialElevations, stdRngStream, EPSILON, List.enum, List.enumFrom,
    someNeNoneIff, noneNeSomeIff,
    Bool.false_eq_true, Bool.true_eq_false, eq_self_iff_true, and_true, true_and,
    and_false, false_and, not_true, not_false_iff, if_true, if_false,
    List.foldl_cons, List.foldl_nil, List.map_cons, List.map_nil,
    List.filter_cons, List.filter_nil, List.append_nil, List.nil_append,
    List.cons_append, List.length_cons, List.length_nil, List.getD_nil,
    List.getD_cons_zero, List.set_cons_zero, List.set_nil, List.find?_cons,
    List.find?_nil, List.sum_cons, List.sum_nil, List.reverse_cons,
    List.reverse_nil, Option.getD_some, Option.getD_none, Option.isSome_some, Option.isSome_none,
    beq_iff_eq, beq_self_eq_true, ne_eq, ite_true, ite_false, decide_True, decide_False,
    Nat.add_eq, Nat.add_zero, Nat.zero_add,
    Option.some.injEq, List.range_zero, List.range_succ, ge_iff_le, max_def,
    getElemL1, getElemL2, getElemL3, getDL1, getDL2, getDL3, setL1, setL2, setL3, List.replicate]

theorem ex1Basin : DrainageBasin.construct 0 [0, 0] ex1Graph = [0, 1] := by
  norm_num only [DrainageBasin.construct, DrainageBasin.basinLoop, DrainageBasin.basinChildren,
    ex1Nbrs0, ex1Nbrs1,
    someNeNoneIff, noneNeSomeIff,
    Bool.false_eq_true, Bool.true_eq_false, eq_self_iff_true, and_true, true_and,
    and_false, false_and, not_true, not_false_iff, if_true, if_false,
    List.foldl_cons, List.foldl_nil, List.map_cons, List.map_nil,
    List.filter_cons, List.filter_nil, List.append_nil, List.nil_append,
    List.cons_append, List.length_cons, List.length_nil, List.getD_nil,
    List.getD_cons_zero, List.set_cons_zero, List.set_nil, List.find?_cons,
    List.find?_nil, List.sum_cons, List.sum_nil, List.reverse_cons,
    List.reverse_nil, Option.getD_some, Option.getD_none, Option.isSome_some, Option.isSome_none,
    beq_iff_eq, beq_self_eq_true, ne_eq, ite_true, ite_false, decide_True, decide_False,
    Nat.add_eq, Nat.add_zero, Nat.zero_add,
    Option.some.injEq, List.range_zero, List.range_succ, ge_iff_le, max_def,
    getElemL1, getElemL2, getElemL3, getDL1, getDL2, getDL3, setL1, setL2, setL3, List.replicate]
theorem ex1Tree1 : StreamTree.construct 2 [0, 5] ex1Graph [0] = [0, 0] := by
  norm_num only [StreamTree.construct, StreamTree.createOutletTable,
    StreamTree.constructInitialStreamTree, StreamTree.steepestDescent,
    StreamTree.findRootsWithLakes, StreamTree.chainWalk, StreamTree.assignPath,
    StreamTree.removeLakesFromStreamTree, StreamTree.carveLoop, StreamTree.carveFuel,
    StreamTree.heapPop, StreamTree.processNeighbor, StreamTree.flipFlow,
    ex1Nbrs0, ex1Nbrs1,
    someNeNoneIff, noneNeSomeIff,
    Bool.false_eq_true, Bool.true_eq_false, eq_self_iff_true, and_true, true_and,
    and_false, false_and, not_true, not_false_iff, if_true, if_false,
    List.foldl_cons, List.foldl_nil, List.map_cons, List.map_nil,
    List.filter_cons, List.filter_nil, List.append_nil, List.nil_append,
    List.cons_append, List.length_cons, List.length_nil, List.getD_nil,
    List.getD_cons_zero, List.set_cons_zero, List.set_nil, List.find?_cons,
    List.find?_nil, List.sum_cons, List.sum_nil, List.reverse_cons,
    List.reverse_nil, Option.getD_some, Option.getD_none, Option.isSome_some, Option.isSome_none,
    beq_iff_eq, beq_self_eq_true, ne_eq, ite_true, ite_false, decide_True, decide_False,
    Nat.add_eq, Nat.add_zero, Nat.zero_add,
    Option.some.injEq, List.range_zero, List.range_succ, ge_iff_le, max_def,
    getElemL1, getElemL2, getElemL3, getDL1, getDL2, getDL3, setL1, setL2, setL3, List.replicate]
theorem ex1Tree2 : StreamTree.construct 2 [0, 1] ex1Graph [0] = [0, 0] := by
  norm_num only [StreamTree.construct, StreamTree.createOutletTable,
    StreamTree.constructInitialStreamTree, StreamTree.steepestDescent,
    StreamTree.findRootsWithLakes, StreamTree.chainWalk, StreamTree.assignPath,
    StreamTree.removeLakesFromStreamTree, StreamTree.carveLoop, StreamTree.carveFuel,
    StreamTree.heapPop, StreamTree.processNeighbor, StreamTree.flipFlow,
    ex1Nbrs0, ex1Nbrs1,
    someNeNoneIff, noneNeSomeIff,
    Bool.false_eq_true, Bool.true_eq_false, eq_self_iff_true, and_true, true_and,
    and_false, false_and, not_true, not_false_iff, if_true, if_false,
    List.foldl_cons, List.foldl_nil, List.map_cons, List.map_nil,
    List.filter_cons, List.filter_nil, List.append_nil, List.nil_append,
    List.cons_append, List.length_cons, List.length_nil, List.getD_nil,
    List.getD_cons_zero, List.set_cons_zero, List.set_nil, List.find?_cons,
    List.find?_nil, List.sum_cons, List.sum_nil, List.reverse_cons,
    List.reverse_nil, Option.getD_some, Option.getD_none, Option.isSome_some, Option.isSome_none,
    beq_iff_eq, beq_self_eq_true, ne_eq, ite_true, ite_false, decide_True, decide_False,
    Nat.add_eq, Nat.add_zero, Nat.zero_add,
    Option.some.injEq, List.range_zero, List.range_succ, ge_iff_le, max_def,
    getElemL1, getElemL2, getElemL3, getDL1, getDL2, getDL3, setL1, setL2, setL3, List.replicate]
theorem ex1TreeS1 : StreamTree.construct 2 [7, 12] ex1Graph [0] = [0, 0] := by
  norm_num only [StreamTree.construct, StreamTree.createOutletTable,
    StreamTree.constructInitialStreamTree, StreamTree.steepestDescent,
    StreamTree.findRootsWithLakes, StreamTree.chainWalk, StreamTree.assignPath,
    StreamTree.removeLakesFromStreamTree, StreamTree.carveLoop, StreamTree.carveFuel,
    StreamTree.heapPop, StreamTree.processNeighbor, StreamTree.flipFlow,
    ex1Nbrs0, ex1Nbrs1,
    someNeNoneIff, noneNeSomeIff,
    Bool.false_eq_true, Bool.true_eq_false, eq_self_iff_true, and_true, true_and,
    and_false, false_and, not_true, not_false_iff, if_true, if_false,
    List.foldl_cons, List.foldl_nil, List.map_cons, List.map_nil,
    List.filter_cons, List.filter_nil, List.append_nil, List.nil_append,
    List.cons_append, List.length_cons, List.length_nil, List.getD_nil,
    List.getD_cons_zero, List.set_cons_zero, List.set_nil, List.find?_cons,
    List.find?_nil, List.sum_cons, List.sum_nil, List.reverse_cons,
    List.reverse_nil, Option.getD_some, Option.getD_none, Option.isSome_some, Option.isSome_none,
    beq_iff_eq, beq_self_eq_true, ne_eq, ite_true, ite_false, decide_True, decide_False,
    Nat.add_eq, Nat.add_zero, Nat.zero_add,
    Option.some.injEq, List.range_zero, List.range_succ, ge_iff_le, max_def,
    getElemL1, getElemL2, getElemL3, getDL1, getDL2, getDL3, setL1, setL2, setL3, List.replicate]
theorem ex1TreeS2 : StreamTree.construct 2 [7, 8] ex1Graph [0] = [0, 0] := by
  norm_num only [StreamTree.construct, StreamTree.createOutletTable,
    StreamTree.constructInitialStreamTree, StreamTree.steepestDescent,
    StreamTree.findRootsWithLakes, StreamTree.chainWalk, StreamTree.assignPath,
    StreamTree.removeLakesFromStreamTree, StreamTree.carveLoop, StreamTree.carveFuel,
    StreamTree.heapPop, StreamTree.processNeighbor, StreamTree.flipFlow,
    ex1Nbrs0, ex1Nbrs1,
    someNeNoneIff, noneNeSomeIff,
    Bool.false_eq_true, Bool.true_eq_false, eq_self_iff_true, and_true, true_and,
    and_false, false_and, not_true, not_false_iff, if_true, if_false,
    List.foldl_cons, List.foldl_nil, List.map_cons, List.map_nil,
    List.filter_cons, List.filter_nil, List.append_nil, List.nil_append,
    List.cons_append, List.length_cons, List.length_nil, List.getD_nil,
    List.getD_cons_zero, List.set_cons_zero, List.set_nil, List.find?_cons,
    List.find?_nil, List.sum_cons, List.sum_nil, List.reverse_cons,
    List.reverse_nil, Option.getD_some, Option.getD_none, Option.isSome_some, Option.isSome_none,
    beq_iff_eq, beq_self_eq_true, ne_eq, ite_true, ite_false, decide_True, decide_False,
    Nat.add_eq, Nat.add_zero, Nat.zero_add,
    Option.some.injEq, List.range_zero, List.range_succ, ge_iff_le, max_def,
    getElemL1, getElemL2, getElemL3, getDL1, getDL2, getDL3, setL1, setL2, setL3, List.replicate]
set_option maxHeartbeats 1000000 in
theorem ex1Iter1 : solveIteration 2 ex1Graph (ex1Params 0) [1, 1] [0] [0, 5] = ⟨[2, 1], [1, 2], [0, 1], true⟩ := by
  norm_num only [ex1Tree1, ex1Basin, solveIteration, processOutlet, ex1Params,
    TopographicalParameters.default, edgeDistance, Graph.hasEdge,
    sptOne, sptTwo, sptThree, ex1Nbrs0, ex1Nbrs1,
    someNeNoneIff, noneNeSomeIff,
    Bool.false_eq_true, Bool.true_eq_false, eq_self_iff_true, and_true, true_and,
    and_false, false_and, not_true, not_false_iff, if_true, if_false,
    List.foldl_cons, List.foldl_nil, List.map_cons, List.map_nil,
    List.filter_cons, List.filter_nil, List.append_nil, List.nil_append,
    List.cons_append, List.length_cons, List.length_nil, List.getD_nil,
    List.getD_cons_zero, List.set_cons_zero, List.set_nil, List.find?_cons,
    List.find?_nil, List.sum_cons, List.sum_nil, List.reverse_cons,
    List.reverse_nil, Option.getD_some, Option.getD_none, Option.isSome_some, Option.isSome_none,
    beq_iff_eq, beq_self_eq_true, ne_eq, ite_true, ite_false, decide_True, decide_False,
    Nat.add_eq, Nat.add_zero, Nat.zero_add,
    Option.some.injEq, List.range_zero, List.range_succ, ge_iff_le, max_def,
    getElemL1, getElemL2, getElemL3, getDL1, getDL2, getDL3, setL1, setL2, setL3, List.replicate]
set_option maxHeartbeats 1000000 in
theorem ex1Iter2 : solveIteration 2 ex1Graph (ex1Params 0) [1, 1] [0] [0, 1] = ⟨[2, 1], [1, 2], [0, 1], false⟩ := by
  norm_num only [ex1Tree2, ex1Basin, solveIteration, processOutlet, ex1Params,
    TopographicalParameters.default, edgeDistance, Graph.hasEdge,
    sptOne, sptTwo, sptThree, ex1Nbrs0, ex1Nbrs1,
    someNeNoneIff, noneNeSomeIff,
    Bool.false_eq_true, Bool.true_eq_false, eq_self_iff_true, and_true, true_and,
    and_false, false_and, not_true, not_false_iff, if_true, if_false,
    List.foldl_cons, List.foldl_nil, List.map_cons, List.map_nil,
    List.filter_cons, List.filter_nil, List.append_nil, List.nil_append,
    List.cons_append, List.length_cons, List.length_nil, List.getD_nil,
    List.getD_cons_zero, List.set_cons_zero, List.set_nil, List.find?_cons,
    List.find?_nil, List.sum_cons, List.sum_nil, List.reverse_cons,
    List.reverse_nil, Option.getD_some, Option.getD_none, Option.isSome_some, Option.isSome_none,
    beq_iff_eq, beq_self_eq_true, ne_eq, ite_true, ite_false, decide_True, decide_False,
    Nat.add_eq, Nat.add_zero, Nat.zero_add,
    Option.some.injEq, List.range_zero, List.range_succ, ge_iff_le, max_def,
    getElemL1, getElemL2, getElemL3, getDL1, getDL2, getDL3, setL1, setL2, setL3, List.replicate]
set_option maxHeartbeats 1000000 in
theorem ex1IterS1 : solveIteration 2 ex1Graph ([⟨7, 1, 1, true, none⟩, ⟨12, 1, 1, false, none⟩]) [1, 1] [0] [7, 12] = ⟨[2, 1], [1, 2], [7, 8], true⟩ := by
  norm_num only [ex1TreeS1, ex1Basin, solveIteration, processOutlet, id,
    TopographicalParameters.default, edgeDistance, Graph.hasEdge,
    sptOne, sptTwo, sptThree, ex1Nbrs0, ex1Nbrs1,
    someNeNoneIff, noneNeSomeIff,
    Bool.false_eq_true, Bool.true_eq_false, eq_self_iff_true, and_true, true_and,
    and_false, false_and, not_true, not_false_iff, if_true, if_false,
    List.foldl_cons, List.foldl_nil, List.map_cons, List.map_nil,
    List.filter_cons, List.filter_nil, List.append_nil, List.nil_append,
    List.cons_append, List.length_cons, List.length_nil, List.getD_nil,
    List.getD_cons_zero, List.set_cons_zero, List.set_nil, List.find?_cons,
    List.find?_nil, List.sum_cons, List.sum_nil, List.reverse_cons,
    List.reverse_nil, Option.getD_some, Option.getD_none, Option.isSome_some, Option.isSome_none,
    beq_iff_eq, beq_self_eq_true, ne_eq, ite_true, ite_false, decide_True, decide_False,
    Nat.add_eq, Nat.add_zero, Nat.zero_add,
    Option.some.injEq, List.range_zero, List.range_succ, ge_iff_le, max_def,
    getElemL1, getElemL2, getElemL3, getDL1, getDL2, getDL3, setL1, setL2, setL3, List.replicate]
set_option maxHeartbeats 1000000 in
theorem ex1IterS2 : solveIteration 2 ex1Graph ([⟨7, 1, 1, true, none⟩, ⟨12, 1, 1, false, none⟩]) [1, 1] [0] [7, 8] = ⟨[2, 1], [1, 2], [7, 8], false⟩ := by
  norm_num only [ex1TreeS2, ex1Basin, solveIteration, processOutlet, id,
    TopographicalParameters.default, edgeDistance, Graph.hasEdge,
    sptOne, sptTwo, sptThree, ex1Nbrs0, ex1Nbrs1,
    someNeNoneIff, noneNeSomeIff,
    Bool.false_eq_true, Bool.true_eq_false, eq_self_iff_true, and_true, true_and,
    and_false, false_and, not_true, not_false_iff, if_true, if_false,
    List.foldl_cons, List.foldl_nil, List.map_cons, List.map_nil,
    List.filter_cons, List.filter_nil, List.append_nil, List.nil_append,
    List.cons_append, List.length_cons, List.length_nil, List.getD_nil,
    List.getD_cons_zero, List.set_cons_zero, List.set_nil, List.find?_cons,
    List.find?_nil, List.sum_cons, List.sum_nil, List.reverse_cons,
    List.reverse_nil, Option.getD_some, Option.getD_none, Option.isSome_some, Option.isSome_none,
    beq_iff_eq, beq_self_eq_true, ne_eq, ite_true, ite_false, decide_True, decide_False,
    Nat.add_eq, Nat.add_zero, Nat.zero_add,
    Option.some.injEq, List.range_zero, List.range_succ, ge_iff_le, max_def,
    getElemL1, getElemL2, getElemL3, getDL1, getDL2, getDL3, setL1, setL2, setL3, List.replicate]
theorem ex1Run : solveLoop 2 ex1Graph (ex1Params 0) [1, 1] [0] none 3 0 0 [0, 5] =
    ⟨[0, 1], 2, true⟩ := by
  norm_num only [solveLoop, ex1Iter1, ex1Iter2,
    someNeNoneIff, noneNeSomeIff,
    Bool.false_eq_true, Bool.true_eq_false, eq_self_iff_true, and_true, true_and,
    and_false, false_and, not_true, not_false_iff, if_true, if_false,
    List.foldl_cons, List.foldl_nil, List.map_cons, List.map_nil,
    List.filter_cons, List.filter_nil, List.append_nil, List.nil_append,
    List.cons_append, List.length_cons, List.length_nil, List.getD_nil,
    List.getD_cons_zero, List.set_cons_zero, List.set_nil, List.find?_cons,
    List.find?_nil, List.sum_cons, List.sum_nil, List.reverse_cons,
    List.reverse_nil, Option.getD_some, Option.getD_none, Option.isSome_some, Option.isSome_none,
    beq_iff_eq, beq_self_eq_true, ne_eq, ite_true, ite_false, decide_True, decide_False,
    Nat.add_eq, Nat.add_zero, Nat.zero_add,
    Option.some.injEq, List.range_zero, List.range_succ, ge_iff_le, max_def,
    getElemL1, getElemL2, getElemL3, getDL1, getDL2, getDL3, setL1, setL2, setL3, List.replicate]

theorem ex1RunShift : solveLoop 2 ex1Graph (shiftParams 7 (ex1Params 0)) [1, 1] [0]
    none 3 0 0 [7, 12] = ⟨[7, 8], 2, true⟩ := by
  rw [ex1SP]
  norm_num only [solveLoop, ex1IterS1, ex1IterS2,
    someNeNoneIff, noneNeSomeIff,
    Bool.false_eq_true, Bool.true_eq_false, eq_self_iff_true, and_true, true_and,
    and_false, false_and, not_true, not_false_iff, if_true, if_false,
    List.foldl_cons, List.foldl_nil, List.map_cons, List.map_nil,
    List.filter_cons, List.filter_nil, List.append_nil, List.nil_append,
    List.cons_append, List.length_cons, List.length_nil, List.getD_nil,
    List.getD_cons_zero, List.set_cons_zero, List.set_nil, List.find?_cons,
    List.find?_nil, List.sum_cons, List.sum_nil, List.reverse_cons,
    List.reverse_nil, Option.getD_some, Option.getD_none, Option.isSome_some, Option.isSome_none,
    beq_iff_eq, beq_self_eq_true, ne_eq, ite_true, ite_false, decide_True, decide_False,
    Nat.add_eq, Nat.add_zero, Nat.zero_add,
    Option.some.injEq, List.range_zero, List.range_succ, ge_iff_le, max_def,
    getElemL1, getElemL2, getElemL3, getDL1, getDL2, getDL3, setL1, setL2, setL3, List.replicate]

theorem ex1Generate : generate stdRngStream 3 ⟨some ex1Model, some (ex1Params 0), none⟩ =
    Except.ok [0, 1] := by
  norm_num only [generate, ex1Model, ex1Outlets, ex1InitBase, ex1Run, ex1ParamsLen,
    ne_eq, not_true, not_false_iff, if_true, if_false, eq_self_iff_true, ite_true, ite_false]

theorem ex1GenerateShift : generate stdRngStream 3
    ⟨some ex1Model, some (shiftParams 7 (ex1Params 0)), none⟩ = Except.ok [7, 8] := by
  norm_num only [generate, ex1Model, ex1OutletsShift, ex1InitShift, ex1RunShift, ex1SPLen,
    ne_eq, not_true, not_false_iff, if_true, if_false, eq_self_iff_true, ite_true, ite_false]

theorem ex1InRange : ex1Graph.inRange 2 := by
  intro i hi ja hja
  interval_cases i
  · rw [ex1Nbrs0] at hja
    rcases List.mem_singleton.mp hja with rfl
    norm_num
  · rw [ex1Nbrs1] at hja
    rcases List.mem_singleton.mp hja with rfl
    norm_num

/-- Witness for the amended C8 theorem at the concrete single-outlet 2-site
configuration, with shift `c = 7`: the run on the shifted parameters returns
`[7, 8]`, the unshifted one `[0, 1]`, pointwise difference exactly `7`. -/
theorem C8_amended_single_outlet_shift_witness : shiftedOn 2 [0, 1] [7, 8] 7 :=
  C8_amended_single_outlet_shift ex1Model (ex1Params 0) none 7 3 0
    ex1InRange ex1ParamsLen ex1Outlets (by decide) [0, 1] [7, 8]
    ex1Generate ex1GenerateShift

end Fastlem

namespace Fastlem

/-! ## The initial stream tree: strict descent, chain termination, chain roots

These are the static facts behind lake resolution: every `next`-chain of the
initial tree strictly descends in altitude until it parks on a self-loop, so it
reaches its `chainRoot` within `num` steps.  All lemmas are stated for an
arbitrary table `next` satisfying the descent property, and instantiated with
`constructInitialStreamTree`. -/

theorem iterate_lt (num : ℕ) (next : List ℕ)
    (hrange : ∀ x, x < num → next.getD x x < num) (x : ℕ) (hx : x < num) :
    ∀ t, (nextF next)^[t] x < num := by
  intro t
  induction t with
  | zero => exact hx
  | succ t ih =>
    rw [Function.iterate_succ_apply']
    exact hrange _ ih

theorem selfLoop_iterate (next : List ℕ) (y : ℕ) (hy : next.getD y y = y) :
    ∀ k, (nextF next)^[k] y = y := by
  intro k
  induction k with
  | zero => rfl
  | succ k ih =>
    rw [Function.iterate_succ_apply]
    have : nextF next y = y := hy
    rw [this, ih]

theorem chain_terminates (num : ℕ) (alt : List ℚ) (next : List ℕ)
    (hdesc : ∀ x, x < num → next.getD x x ≠ x →
      next.getD x x < num ∧ alt.getD (next.getD x x) 0 < alt.getD x 0)
    (x : ℕ) (hx : x < num) :
    ∃ k, k < num ∧
      next.getD ((nextF next)^[k] x) ((nextF next)^[k] x) = (nextF next)^[k] x := by
  by_contra hcon
  push_neg at hcon
  have hrange : ∀ y, y < num → next.getD y y < num := by
    intro y hy
    by_cases hsl : next.getD y y = y
    · rw [hsl]; exact hy
    · exact (hdesc y hy hsl).1
  have hlt : ∀ t, (nextF next)^[t] x < num := iterate_lt num next hrange x hx
  have hstep : ∀ t, t < num →
      alt.getD ((nextF next)^[t + 1] x) 0 < alt.getD ((nextF next)^[t] x) 0 := by
    intro t ht
    rw [Function.iterate_succ_apply']
    exact (hdesc _ (hlt t) (hcon t ht)).2
  have hmono : ∀ a b, a < b → b ≤ num →
      alt.getD ((nextF next)^[b] x) 0 < alt.getD ((nextF next)^[a] x) 0 := by
    intro a b hab hb
    induction b with
    | zero => omega
    | succ b ihb =>
      rcases Nat.lt_or_ge a b with h | h
      · exact lt_trans (hstep b (by omega)) (ihb h (by omega))
      · have : a = b := by omega
        subst this
        exact hstep a (by omega)
  have hinj : Set.InjOn (fun t => (nextF next)^[t] x)
      (Finset.range (num + 1) : Finset ℕ) := by
    intro a ha b hb hab
    simp only [Finset.coe_range, Set.mem_Iio] at ha hb
    dsimp only at hab
    by_contra hne
    rcases Nat.lt_or_ge a b with h | h
    · have := hmono a b h (by omega)
      rw [hab] at this
      exact lt_irrefl _ this
    · have hba : b < a := by omega
      have := hmono b a hba (by omega)
      rw [hab] at this
      exact lt_irrefl _ this
  have hmaps : ∀ t ∈ Finset.range (num + 1),
      (fun t => (nextF next)^[t] x) t ∈ Finset.range num := by
    intro t _
    exact Finset.mem_range.mpr (hlt t)
  have := Finset.card_le_card_of_injOn _ hmaps hinj
  simp only [Finset.card_range] at this
  omega

theorem chainRoot_eq_of_selfLoop (num : ℕ) (next : List ℕ) (x k : ℕ)
    (hk : k ≤ num)
    (hsl : next.getD ((nextF next)^[k] x) ((nextF next)^[k] x) =
      (nextF next)^[k] x) :
    chainRoot num next x = (nextF next)^[k] x := by
  rw [chainRoot, show num = (num - k) + k by omega, Function.iterate_add_apply]
  exact selfLoop_iterate next _ hsl (num - k)

theorem chainRoot_selfLoop (num : ℕ) (alt : List ℚ) (next : List ℕ)
    (hdesc : ∀ x, x < num → next.getD x x ≠ x →
      next.getD x x < num ∧ alt.getD (next.getD x x) 0 < alt.getD x 0)
    (x : ℕ) (hx : x < num) :
    next.getD (chainRoot num next x) (chainRoot num next x) =
      chainRoot num next x := by
  obtain ⟨k, hk, hsl⟩ := chain_terminates num alt next hdesc x hx
  rw [chainRoot_eq_of_selfLoop num next x k (by omega) hsl]
  exact hsl

theorem chainRoot_lt (num : ℕ) (next : List ℕ)
    (hrange : ∀ y, y < num → next.getD y y < num) (x : ℕ) (hx : x < num) :
    chainRoot num next x < num :=
  iterate_lt num next hrange x hx num

theorem chainRoot_next (num : ℕ) (alt : List ℚ) (next : List ℕ)
    (hdesc : ∀ x, x < num → next.getD x x ≠ x →
      next.getD x x < num ∧ alt.getD (next.getD x x) 0 < alt.getD x 0)
    (x : ℕ) (hx : x < num) :
    chainRoot num next (nextF next x) = chainRoot num next x := by
  have h1 : chainRoot num next (nextF next x) =
      (nextF next)^[num + 1] x := by
    rw [chainRoot, ← Function.iterate_succ_apply]
  rw [h1, Function.iterate_succ_apply', ← chainRoot]
  exact chainRoot_selfLoop num alt next hdesc x hx

theorem chainRoot_iterate (num : ℕ) (alt : List ℚ) (next : List ℕ)
    (hdesc : ∀ x, x < num → next.getD x x ≠ x →
      next.getD x x < num ∧ alt.getD (next.getD x x) 0 < alt.getD x 0)
    (x : ℕ) (hx : x < num) :
    ∀ t, chainRoot num next ((nextF next)^[t] x) = chainRoot num next x := by
  have hrange : ∀ y, y < num → next.getD y y < num := by
    intro y hy
    by_cases hsl : next.getD y y = y
    · rw [hsl]; exact hy
    · exact (hdesc y hy hsl).1
  intro t
  induction t with
  | zero => rfl
  | succ t ih =>
    rw [Function.iterate_succ_apply']
    rw [chainRoot_next num alt next hdesc _ (iterate_lt num next hrange x hx t)]
    exact ih

theorem selfLoop_chainRoot_self (num : ℕ) (next : List ℕ) (x : ℕ)
    (hx : next.getD x x = x) : chainRoot num next x = x :=
  selfLoop_iterate next x hx num

/-- The initial stream tree satisfies the strict-descent property (under
positive edge distances and an in-range graph). -/
theorem constructInitialStreamTree_desc (num : ℕ) (alt : List ℚ) (g : Graph)
    (isOutlet : List Bool) (hg : g.inRange num) (hpos : g.posDist) :
    ∀ x, x < num →
      (StreamTree.constructInitialStreamTree num alt g isOutlet).getD x x ≠ x →
      (StreamTree.constructInitialStreamTree num alt g isOutlet).getD x x < num ∧
      alt.getD ((StreamTree.constructInitialStreamTree num alt g isOutlet).getD x x) 0 <
        alt.getD x 0 := by
  intro x hx hne
  rw [constructInitialStreamTree_getD num alt g isOutlet x hx] at hne ⊢
  by_cases ho : isOutlet.getD x false = true
  · rw [if_pos ho] at hne
    exact absurd rfl hne
  · rw [if_neg ho] at hne ⊢
    rcases steepestDescent_spec alt g x (fun ja hja => hpos x ja hja) with
      ⟨_, heq⟩ | ⟨d, hd, hlt, _⟩
    · exact absurd heq hne
    · exact ⟨steepestDescent_lt num alt g hg x hx, hlt⟩

end Fastlem
